import Mathlib

/-!
A verification development for the MyFinance classification engine
(backend/app/services).  Python sources are shallowly embedded as Lean
functions over `List Char` / `String`, with machine-level library calls
(regular expressions, `str` methods, `json.loads`) hand-translated to
equivalent character-list scans.  Case mapping and the whitespace class
are modelled over ASCII, which covers every character class the sources
match against (the payment-mode table, regex literals and separators are
ASCII apart from the em/en dash, which is not a letter).  The current
year used by `label_parser._parse_date_components` for year-less dates
(`date.today().year`) is threaded as an explicit argument.
-/

namespace MyFinance

abbrev Chars := List Char

/-- Python whitespace (`str.strip` / regex `\s`), restricted to ASCII. -/
def isPySpace (c : Char) : Bool :=
  c == ' ' || c == '\t' || c == '\n' || c == '\r' || c == '\x0b' || c == '\x0c'

/-- ASCII upper-casing of one character (Python `str.upper` on ASCII). -/
def upChar (c : Char) : Char := c.toUpper

/-- ASCII lower-casing of one character (Python `str.lower` on ASCII). -/
def lowChar (c : Char) : Char := c.toLower

def upStr (l : Chars) : Chars := l.map upChar

def lowStr (l : Chars) : Chars := l.map lowChar

/-- Python `str.strip()` (no argument). -/
def pyStrip (l : Chars) : Chars :=
  ((l.dropWhile isPySpace).reverse.dropWhile isPySpace).reverse

/-- Emit a pending whitespace run: two or more whitespace characters
collapse to a single `' '`, a single one is kept as it is. -/
def emitPend (pend : Chars) : Chars :=
  if 2 ≤ pend.length then [' '] else pend.reverse

def collapseGo (pend : Chars) : Chars → Chars
  | [] => emitPend pend
  | c :: t =>
    if isPySpace c then collapseGo (c :: pend) t
    else emitPend pend ++ c :: collapseGo [] t

/-- `_MULTI_SPACE_RE.sub(" ", s)`: each maximal run of two or more
whitespace characters becomes a single `' '`; an isolated whitespace
character is kept as it is. -/
def collapseWs (l : Chars) : Chars := collapseGo [] l

/-- Case-insensitive (ASCII) test that `s` starts with `pat`. -/
def ciStarts (pat : Chars) (s : Chars) : Bool :=
  (upStr s).take pat.length = upStr pat

def isWordChar (c : Char) : Bool :=
  c.isAlpha || c.isDigit || c == '_'

def isCardChar (c : Char) : Bool :=
  c.isDigit || c == 'X' || c == 'x' || c == '*'

def valNat (ds : Chars) : Nat :=
  ds.foldl (fun a c => a * 10 + (c.toNat - '0'.toNat)) 0

/-- `PAYMENT_MODES` from `label_parser.py`, in source order. -/
def modeTable : List (String × String) :=
  [("PAIEMENT PAR CARTE", "card"), ("PAIEMENT CARTE", "card"),
   ("FACTURE CARTE", "card"), ("CARTE BANCAIRE", "card"),
   ("VIREMENT SEPA RECU", "transfer_in"), ("VIREMENT SEPA", "transfer"),
   ("VIR SEPA RECU", "transfer_in"), ("VIR INST RECU", "transfer_in"),
   ("VIR SEPA", "transfer"), ("VIR INST", "transfer"),
   ("VIREMENT RECU", "transfer_in"), ("VIR RECU", "transfer_in"),
   ("VIREMENT", "transfer"), ("VIR", "transfer"),
   ("PRELEVEMENT SEPA", "direct_debit"), ("PRLV SEPA", "direct_debit"),
   ("PRELEVEMENT", "direct_debit"), ("PRLV", "direct_debit"),
   ("RETRAIT DAB", "atm"), ("RETRAIT", "atm"),
   ("REMISE DE CHEQUE", "check_deposit"), ("REMISE DE CHQ", "check_deposit"),
   ("REMISE CHQ", "check_deposit"), ("CHEQUE", "check"), ("CHQ", "check"),
   ("COTISATION", "fee"), ("COMMISSION", "fee"), ("FRAIS", "fee"),
   ("ABONNEMENT", "subscription"), ("REMBOURSEMENT", "refund"),
   ("AVOIR", "credit"), ("CB", "card")]

/-- One attempt of `_SEPARATOR_RE` (`\s*[—–]\s*|\s+-\s+`) at the current
position; returns the remainder after the matched span. -/
def sepHere (s : Chars) : Option Chars :=
  -- first alternative: `\s*[—–]\s*`
  let r1 := s.dropWhile isPySpace
  match r1 with
  | d :: r2 =>
    if d == '—' || d == '–' then some (r2.dropWhile isPySpace)
    else
      -- second alternative: `\s+-\s+`
      match s with
      | c :: _ =>
        if isPySpace c then
          match s.dropWhile isPySpace with
          | '-' :: r3 =>
            match r3 with
            | e :: _ => if isPySpace e then some (r3.dropWhile isPySpace) else none
            | [] => none
          | _ => none
        else none
      | [] => none
  | [] => none

/-- `_SEPARATOR_RE.split(label, maxsplit=1)`: leftmost match wins;
returns `(before, after)` when a separator occurs. -/
def sepSplitGo (acc : Chars) (s : Chars) : Option (Chars × Chars) :=
  match sepHere s with
  | some rest => some (acc.reverse, rest)
  | none =>
    match s with
    | [] => none
    | c :: t => sepSplitGo (c :: acc) t

def sepSplit (s : Chars) : Option (Chars × Chars) := sepSplitGo [] s

/-- `_match_payment_mode`: ordered scan of `modeTable` against the
upper-cased, stripped text; the source tests
`upper == m or upper.startswith(m + " ") or upper.startswith(m)`. -/
def matchMode (text : Chars) : Option (String × String) :=
  if text = [] then none
  else
    let upper := upStr (pyStrip text)
    modeTable.find? fun (m, _) =>
      upper == m.data || ciStarts (m.data ++ [' ']) upper || ciStarts m.data upper

/-- `_extract_mode_prefix`: find a payment mode at the beginning of a
label with no separator; returns `(mode_part?, details)`. -/
def extractModeHead (label : Chars) : Option Chars × Chars :=
  let upper := upStr label
  match modeTable.find? fun (m, _) =>
      ciStarts (m.data ++ [' ']) upper || upper == m.data with
  | some (m, _) =>
    if ciStarts (m.data ++ [' ']) upper then
      (some (label.take m.data.length), pyStrip (label.drop m.data.length))
    else (some label, [])
  | none => (none, label)

/-- One attempt of `_CARD_SUFFIX_RE`
(`\s+CARTE\s+(\d{4}[\dX*]{4,}[\dX*]*\d{0,4})\s*$`, IGNORECASE) at the
current position; returns the captured token when the whole tail
matches. -/
def cardSuffixHere (s : Chars) : Option Chars :=
  match s with
  | c :: _ =>
    if isPySpace c then
      let r1 := s.dropWhile isPySpace
      if ciStarts "CARTE".data r1 then
        let r2 := r1.drop 5
        match r2 with
        | e :: _ =>
          if isPySpace e then
            let r3 := r2.dropWhile isPySpace
            let tok := r3.takeWhile isCardChar
            let rest := r3.dropWhile isCardChar
            if 8 ≤ tok.length ∧ (tok.take 4).all Char.isDigit ∧ rest.all isPySpace
            then some tok else none
          else none
        | [] => none
      else none
    else none
  | [] => none

/-- `_CARD_SUFFIX_RE.search`: leftmost position wins; returns
`(details[:match.start()], token)`. -/
def cardSuffixGo (acc : Chars) (s : Chars) : Option (Chars × Chars) :=
  match cardSuffixHere s with
  | some tok => some (acc.reverse, tok)
  | none =>
    match s with
    | [] => none
    | c :: t => cardSuffixGo (c :: acc) t

def cardSuffixFind (s : Chars) : Option (Chars × Chars) := cardSuffixGo [] s

/-- Word-boundary test between an optional previous character and a next
character (regex `\b`). -/
def boundary (prev next : Option Char) : Bool :=
  match prev, next with
  | none, none => false
  | none, some c => isWordChar c
  | some c, none => isWordChar c
  | some a, some b => isWordChar a ≠ isWordChar b

/-- One attempt of `_CARD_INLINE_RE`
(`\bCARTE\s+(\d{4}[\dX*]{4,}[\dX*]*\d{0,4})\b`, IGNORECASE) with `prev`
the character before the current position; returns
`(token, remainder after the match)`. -/
def cardInlineHere (prev : Option Char) (s : Chars) : Option (Chars × Chars) :=
  if ciStarts "CARTE".data s ∧ boundary prev (s.head?) then
    let r2 := s.drop 5
    match r2 with
    | e :: _ =>
      if isPySpace e then
        let r3 := r2.dropWhile isPySpace
        let run := r3.takeWhile isCardChar
        let rest := r3.dropWhile isCardChar
        if 8 ≤ run.length ∧ (run.take 4).all Char.isDigit then
          -- greedy group, backtracking on the final `\b`:
          -- take the longest L ≤ run.length with a word boundary after it
          let ok : Nat → Bool := fun L =>
            boundary (run.take L).getLast? ((run.drop L) ++ rest).head?
          match (List.range (run.length - 7)).reverse.find? (fun k => ok (8 + k)) with
          | some k => some (run.take (8 + k), (run.drop (8 + k)) ++ rest)
          | none => none
        else none
      else none
    | [] => none
  else none

/-- `_CARD_INLINE_RE.search`: leftmost match; returns
`(details[:match.start()], token, details[match.end():])`. -/
def cardInlineGo (prev : Option Char) (acc : Chars) (s : Chars) :
    Option (Chars × Chars × Chars) :=
  match cardInlineHere prev s with
  | some (tok, rest) => some (acc.reverse, tok, rest)
  | none =>
    match s with
    | [] => none
    | c :: t => cardInlineGo (some c) (c :: acc) t

def cardInlineFind (s : Chars) : Option (Chars × Chars × Chars) :=
  cardInlineGo none [] s

/-- `_DATE_PREFIX_DDMMYY.match` (`^DU\s+(\d{2})(\d{2})(\d{2})\s+`,
IGNORECASE): returns `(dd, mm, yy, remainder)`. -/
def duCompact (s : Chars) : Option (Chars × Chars × Chars × Chars) :=
  if ciStarts "DU".data s then
    let r1 := s.drop 2
    match r1 with
    | c :: _ =>
      if isPySpace c then
        let r2 := r1.dropWhile isPySpace
        let ds := r2.takeWhile Char.isDigit
        let r3 := r2.dropWhile Char.isDigit
        if ds.length = 6 then
          match r3 with
          | e :: _ =>
            if isPySpace e then
              some (ds.take 2, (ds.drop 2).take 2, ds.drop 4, r3.dropWhile isPySpace)
            else none
          | [] => none
        else none
      else none
    | [] => none
  else none

/-- `_DATE_PREFIX_SLASH.match` (`^DU\s+(\d{2})/(\d{2})/(\d{2,4})\s+`,
IGNORECASE): returns `(dd, mm, yy, remainder)`. -/
def duSlashed (s : Chars) : Option (Chars × Chars × Chars × Chars) :=
  if ciStarts "DU".data s then
    let r1 := s.drop 2
    match r1 with
    | c :: _ =>
      if isPySpace c then
        let r2 := r1.dropWhile isPySpace
        let d1 := r2.takeWhile Char.isDigit
        match d1.length == 2, r2.drop 2 with
        | true, '/' :: r3 =>
          let d2 := r3.takeWhile Char.isDigit
          match d2.length == 2, r3.drop 2 with
          | true, '/' :: r4 =>
            let d3 := r4.takeWhile Char.isDigit
            let r5 := r4.dropWhile Char.isDigit
            if 2 ≤ d3.length ∧ d3.length ≤ 4 then
              match r5 with
              | e :: _ =>
                if isPySpace e then some (d1, d2, d3, r5.dropWhile isPySpace)
                else none
              | [] => none
            else none
          | _, _ => none
        | _, _ => none
      else none
    | [] => none
  else none

/-- One attempt of `_DATE_TRAILING`
(`\s+(\d{2})/(\d{2})(?:/(\d{2,4}))?\s*$`) at the current position. -/
def dateTrailHere (s : Chars) : Option (Chars × Chars × Option Chars) :=
  match s with
  | c :: _ =>
    if isPySpace c then
      let r1 := s.dropWhile isPySpace
      let d1 := r1.takeWhile Char.isDigit
      match d1.length == 2, r1.drop 2 with
      | true, '/' :: r2 =>
        let d2 := r2.takeWhile Char.isDigit
        if d2.length == 2 then
          let r3 := r2.drop 2
          -- greedy optional group `(?:/(\d{2,4}))?` first
          let withYear : Option (Chars × Chars × Option Chars) :=
            match r3 with
            | '/' :: r4 =>
              let d3 := r4.takeWhile Char.isDigit
              let r5 := r4.dropWhile Char.isDigit
              if 2 ≤ d3.length ∧ d3.length ≤ 4 ∧ r5.all isPySpace
              then some (d1, d2, some d3) else none
            | _ => none
          match withYear with
          | some r => some r
          | none => if r3.all isPySpace then some (d1, d2, none) else none
        else none
      | _, _ => none
    else none
  | [] => none

/-- `_DATE_TRAILING.search`: leftmost match; returns
`(details[:match.start()], dd, mm, yy?)`. -/
def dateTrailGo (acc : Chars) (s : Chars) :
    Option (Chars × Chars × Chars × Option Chars) :=
  match dateTrailHere s with
  | some (d1, d2, y) => some (acc.reverse, d1, d2, y)
  | none =>
    match s with
    | [] => none
    | c :: t => dateTrailGo (c :: acc) t

def dateTrailFind (s : Chars) : Option (Chars × Chars × Chars × Option Chars) :=
  dateTrailGo [] s

def isRefChar (c : Char) : Bool := isWordChar c || c = '/' || c = '-'

/-- Continuation of `_REF_TRAILING_RE` after its keyword: optional
colon/dot amid whitespace, then one or more word, slash or dash
characters, then only whitespace up to the end of the string. -/
def refTail (r : Chars) : Bool :=
  let r2 := r.dropWhile isPySpace
  let r3 := match r2 with
    | c :: t => if c = ':' || c = '.' then t else r2
    | [] => r2
  let r4 := r3.dropWhile isPySpace
  let run := r4.takeWhile isRefChar
  let r5 := r4.dropWhile isRefChar
  !run.isEmpty && r5.all isPySpace

/-- One attempt of `_REF_TRAILING_RE`
(`\s+(?:REF|ID|N[°O]?)` then `refTail`, IGNORECASE). -/
def refHere (s : Chars) : Bool :=
  match s with
  | c :: _ =>
    isPySpace c &&
      (let r1 := s.dropWhile isPySpace
       if ciStarts "REF".data r1 then refTail (r1.drop 3)
       else if ciStarts "ID".data r1 then refTail (r1.drop 2)
       else
         match r1 with
         | n :: r1' =>
           (n == 'N' || n == 'n') &&
             (match r1' with
              | o :: r1'' =>
                if o == '°' || o == 'O' || o == 'o' then
                  refTail r1'' || refTail r1'   -- greedy `[°O]?`, then backtrack
                else refTail r1'
              | [] => refTail r1')
         | [] => false)
  | [] => false

/-- `_REF_TRAILING_RE.sub("", details)`: the match always extends to the
end of the string, so the leftmost match position truncates the rest. -/
def refStripGo (acc : Chars) (s : Chars) : Chars :=
  if refHere s then acc.reverse
  else
    match s with
    | [] => acc.reverse
    | c :: t => refStripGo (c :: acc) t

def refStrip (s : Chars) : Chars := refStripGo [] s

/-- One attempt of `_CHECK_NUM_RE` (`N[°O]?\s*(\d+)`, IGNORECASE). -/
def checkNumHere (s : Chars) : Option Chars :=
  match s with
  | n :: t =>
    if n == 'N' || n == 'n' then
      let digitsAt : Chars → Option Chars := fun r =>
        let ds := (r.dropWhile isPySpace).takeWhile Char.isDigit
        if ds = [] then none else some ds
      match t with
      | o :: t' =>
        if o == '°' || o == 'O' || o == 'o' then
          match digitsAt t' with
          | some ds => some ds
          | none => digitsAt t
        else digitsAt t
      | [] => digitsAt t
    else none
  | [] => none

/-- `_CHECK_NUM_RE.search`: leftmost match wins. -/
def checkNumGo (s : Chars) : Option Chars :=
  match checkNumHere s with
  | some ds => some ds
  | none =>
    match s with
    | [] => none
    | _ :: t => checkNumGo t

/-- Gregorian leap year, as `datetime.date` uses. -/
def isLeap (y : Nat) : Bool := y % 4 == 0 && (y % 100 != 0 || y % 400 == 0)

def daysInMonth (y m : Nat) : Nat :=
  if m = 2 then (if isLeap y then 29 else 28)
  else if m == 4 || m == 6 || m == 9 || m == 11 then 30
  else 31

/-- Validity test of `datetime.date(year, month, day)` (raises
`ValueError` outside these bounds). -/
def validDate (y m d : Nat) : Bool :=
  decide (1 ≤ y ∧ y ≤ 9999 ∧ 1 ≤ m ∧ m ≤ 12 ∧ 1 ≤ d ∧ d ≤ daysInMonth y m)

def padNat (width n : Nat) : Chars :=
  let ds := (Nat.toDigits 10 n)
  List.replicate (width - ds.length) '0' ++ ds

/-- `date(y, m, d).isoformat()`. -/
def isoDate (y m d : Nat) : String :=
  ⟨padNat 4 y ++ ['-'] ++ padNat 2 m ++ ['-'] ++ padNat 2 d⟩

/-- `_parse_date_components`: 2-digit years get 2000 added, a missing
year becomes the current year; invalid dates yield `None` (the source
catches the `ValueError` raised by the `date` constructor). -/
def parseDateParts (currentYear : Nat) (dd mm : Chars) (yy : Option Chars) :
    Option String :=
  let day := valNat dd
  let month := valNat mm
  let year := match yy with
    | none => currentYear
    | some y => let v := valNat y; if v < 100 then v + 2000 else v
  if validDate year month day then some (isoDate year month day) else none

/-- Output of `parse_label` (all fields nullable). -/
structure ParsedLabel where
  payment_mode : Option String
  payment_type : Option String
  counterparty : Option String
  card_id : Option String
  operation_date : Option String
  check_number : Option String
  raw_details : Option String
deriving DecidableEq, Repr

/-- `_empty_result()`. -/
def emptyResult : ParsedLabel := ⟨none, none, none, none, none, none, none⟩

/-- `parse_label` from `label_parser.py`, with the current year for
year-less trailing dates passed explicitly. -/
def parseLabel (currentYear : Nat) (label_raw : String) : ParsedLabel :=
  if label_raw.data.isEmpty || (pyStrip label_raw.data).isEmpty then emptyResult
  else
    let label := collapseWs (pyStrip label_raw.data)
    -- Step 1: split on separator (em/en dash or spaced hyphen)
    let (modePart, details0) :=
      match sepSplit label with
      | some (a, b) => (some (pyStrip a), pyStrip b)
      | none => extractModeHead label
    -- Step 2: identify payment mode
    let (payMode, payType) :=
      match modePart with
      | none => (none, none)
      | some mp =>
        match matchMode mp with
        | some (m, t) => (some m, some t)
        | none => (none, none)
    -- push an unconsumed remainder of the mode part into the details
    let details1 :=
      match payMode, modePart with
      | some m, some mp =>
        let remainder := pyStrip (mp.drop m.data.length)
        if remainder ≠ [] then
          if details0 ≠ [] then pyStrip (remainder ++ [' '] ++ details0)
          else remainder
        else details0
      | _, _ => details0
    if details1 = [] then
      { payment_mode := payMode
        payment_type := payType
        counterparty := if payMode = none then some ⟨label⟩ else none
        card_id := none, operation_date := none, check_number := none
        raw_details := none }
    else
      let rawDetails := details1
      -- Step 3: extract card ID
      let (cardId, details2) :=
        match cardSuffixFind details1 with
        | some (before, tok) => (some tok, pyStrip before)
        | none =>
          match cardInlineFind details1 with
          | some (before, tok, after) => (some tok, pyStrip (before ++ [' '] ++ after))
          | none => (none, details1)
      -- Step 4: extract date
      let (opDate, details3) :=
        match duCompact details2 with
        | some (dd, mm, yy, rest) =>
          (parseDateParts currentYear dd mm (some yy), pyStrip rest)
        | none =>
          match duSlashed details2 with
          | some (dd, mm, yy, rest) =>
            (parseDateParts currentYear dd mm (some yy), pyStrip rest)
          | none =>
            match dateTrailFind details2 with
            | some (before, dd, mm, yy) =>
              (parseDateParts currentYear dd mm yy, pyStrip before)
            | none => (none, details2)
      -- Step 5: extract check number (for check types)
      let checkNo :=
        if payType = some "check" ∨ payType = some "check_deposit" then
          checkNumGo details3
        else none
      -- Step 6: strip trailing references
      let details4 := pyStrip (refStrip details3)
      -- Step 7: clean up remaining as counterparty
      let cp := pyStrip (collapseWs details4)
      { payment_mode := payMode
        payment_type := payType
        counterparty := if cp = [] then none else some ⟨cp⟩
        card_id := cardId.map fun t => (⟨t⟩ : String)
        operation_date := opDate
        check_number := checkNo.map fun t => (⟨t⟩ : String)
        raw_details := some ⟨rawDetails⟩ }

/-! ## Data model (relational rows, scoped to what the services read) -/

structure Account where
  id : Nat
  user_id : Nat
deriving DecidableEq, Repr

structure Category where
  id : Nat
  name : String
  parent_id : Option Nat
  is_system : Bool
  user_id : Option Nat
deriving DecidableEq, Repr

/-- Transaction amounts are modelled as exact integers (signed
fixed-point minor units); the services only sum, negate and compare
absolute amounts. -/
structure Txn where
  id : Nat
  account_id : Nat
  label_raw : String
  label_clean : Option String
  amount : Int
  date : String
  category_id : Option Nat
  ai_confidence : Option String
  embedding : Option (List ℚ)
  parsed_metadata : Option ParsedLabel
  deleted : Bool
deriving DecidableEq, Repr

structure Rule where
  id : Nat
  user_id : Nat
  pattern : String
  match_type : String
  category_id : Nat
  custom_label : Option String
  priority : Int
  is_active : Bool
  created_by : String
deriving DecidableEq, Repr

/-- Denormalized transaction snapshot stored inside proposal clusters
(`{id, label_raw, amount, date}`). -/
structure TxnSnap where
  id : Nat
  label_raw : String
  amount : Int
  date : String
deriving DecidableEq, Repr

structure Proposal where
  id : Nat
  user_id : Nat
  account_id : Nat
  distance_threshold : ℚ
  total_uncategorized : Nat
  unclustered_count : Nat
deriving DecidableEq, Repr

structure PCluster where
  id : Nat
  proposal_id : Nat
  cluster_index : Int
  representative_label : String
  transaction_ids : List Nat
  transactions : List TxnSnap
  transaction_count : Nat
  total_amount_abs : Int
  suggested_category_id : Option Nat
  suggested_category_name : Option String
  suggestion_confidence : Option String
  suggestion_source : Option String
  suggestion_explanation : Option String
  status : String
  override_category_id : Option Nat
  rule_pattern : Option String
  custom_label : Option String
  excluded_ids : Option (List Nat)
deriving DecidableEq, Repr

/-- Persistent `TransactionCluster` rows, kept to the fields
`apply_cluster` writes. -/
structure TCluster where
  id : Nat
  user_id : Nat
  name : String
  transaction_ids : List Nat
  category_id : Option Nat
  source : String
  rule_pattern : Option String
  match_type : Option String
deriving DecidableEq, Repr

/-- The relational store as the services see it. -/
structure State where
  accounts : List Account
  categories : List Category
  transactions : List Txn
  rules : List Rule
  proposals : List Proposal
  pclusters : List PCluster
  tclusters : List TCluster
deriving DecidableEq, Repr

/-- `Transaction.account_id IN (SELECT id FROM accounts WHERE user_id = uid)`. -/
def userOwns (st : State) (uid : Nat) (t : Txn) : Bool :=
  st.accounts.any fun a => a.id == t.account_id && a.user_id == uid

def toSnap (t : Txn) : TxnSnap := ⟨t.id, t.label_raw, t.amount, t.date⟩

/-! ## Rule engine (`rule_service.py`) -/

def startsWithB (p l : Chars) : Bool := l.take p.length == p

def containsB (p : Chars) : Chars → Bool
  | [] => p.isEmpty
  | c :: t => startsWithB p (c :: t) || containsB p t

/-- `RuleService._matches`: case-insensitive comparison per match type,
`contains` being the default. -/
def ruleMatches (label pattern match_type : String) : Bool :=
  let ll := lowStr label.data
  let pl := lowStr pattern.data
  if match_type = "exact" then ll == pl
  else if match_type = "starts_with" then startsWithB pl ll
  else containsB pl ll

/-- The per-transaction body of `apply_rules` when a rule matches:
category assigned, confidence tagged `"rule"`, custom label applied when
truthy. -/
def applyRuleToTxn (r : Rule) (t : Txn) : Txn :=
  { t with category_id := some r.category_id
           ai_confidence := some "rule"
           label_clean :=
             match r.custom_label with
             | some cl => if cl.data ≠ [] then some cl else t.label_clean
             | none => t.label_clean }

/-- The inner `for rule in rules: ... break` loop of `apply_rules`:
first matching rule wins; remaining rules are not considered. -/
def applyRulesTxnGo : List Rule → Txn → Txn
  | [], t => t
  | r :: rs, t =>
    if ruleMatches t.label_raw r.pattern r.match_type then applyRuleToTxn r t
    else applyRulesTxnGo rs t

/-- Descending-priority order of the SQL `ORDER BY priority DESC`,
realised as a stable sort. -/
def sortRulesByPriority (rules : List Rule) : List Rule :=
  rules.insertionSort fun a b => b.priority ≤ a.priority

/-- The active-rule query of `apply_rules`. -/
def activeRulesSorted (st : State) (uid : Nat) : List Rule :=
  sortRulesByPriority (st.rules.filter fun r => r.user_id == uid && r.is_active)

/-- Scope filter of `apply_rules`: uncategorized, non-deleted
transactions of the user (optionally one account). -/
def ruleScope (st : State) (uid : Nat) (account_id : Option Nat) (t : Txn) : Bool :=
  userOwns st uid t && t.category_id == none && !t.deleted &&
    (match account_id with | some aid => t.account_id == aid | none => true)

/-- `RuleService.apply_rules`: returns the new store plus
`(applied, total_uncategorized)`. -/
def applyRules (st : State) (uid : Nat) (account_id : Option Nat) :
    State × Nat × Nat :=
  let rules := activeRulesSorted st uid
  if rules.isEmpty then (st, 0, 0)
  else
    let inScope := st.transactions.filter (ruleScope st uid account_id)
    let applied := (inScope.filter fun t =>
      (rules.any fun r => ruleMatches t.label_raw r.pattern r.match_type)).length
    let st' := { st with transactions := st.transactions.map (fun t =>
      if ruleScope st uid account_id t then applyRulesTxnGo rules t else t) }
    (st', applied, inScope.length)

/-- `RuleService.create_rule_from_transaction` (its actual signature:
`user, label_raw, category_id, custom_label`): updates an existing rule
with a case-insensitively equal pattern in place, or creates a new
`contains` rule at priority 10.  The lookup does not filter on
`is_active`. -/
def createRuleFromTransaction (st : State) (uid : Nat) (label_raw : String)
    (category_id : Nat) (custom_label : Option String) : State × Rule :=
  let pattern : String := ⟨pyStrip label_raw.data⟩
  match st.rules.find? (fun r =>
      r.user_id == uid && lowStr r.pattern.data == lowStr pattern.data) with
  | some existing =>
    let updated := { existing with
      category_id := category_id
      custom_label := match custom_label with
        | some cl => some cl
        | none => existing.custom_label
      is_active := true }
    ({ st with rules := st.rules.map (fun r => if r.id == existing.id then updated else r) },
     updated)
  | none =>
    let rule : Rule :=
      { id := (st.rules.map (·.id)).foldr max 0 + 1
        user_id := uid, pattern := pattern, match_type := "contains"
        category_id := category_id, custom_label := custom_label
        priority := 10, is_active := true, created_by := "manual" }
    ({ st with rules := st.rules ++ [rule] }, rule)

/-! ## Batch classification (`embedding_service.classify_transactions`,
`classification_service.apply_cluster`) -/

structure ClassifyOut where
  classified_count : Nat
  rule_created : Bool
deriving DecidableEq, Repr

/-- Selection of `classify_transactions`: requested ids, owned by the
user, not deleted. -/
def classifySel (st : State) (uid : Nat) (transaction_ids : List Nat) (t : Txn) :
    Bool :=
  transaction_ids.contains t.id && userOwns st uid t && !t.deleted

/-- `EmbeddingService.classify_transactions`.  An unknown `category_id`
returns a zero `classified_count` and `rule_created = False` without
touching any row.  When rule creation is reached, the source invokes
`RuleService.create_rule_from_transaction(..., pattern_override=rule_pattern)`,
but that method declares no `pattern_override` parameter
(`rule_service.py`), so Python raises `TypeError` before the rule is
created; the raise is modelled as `Except.error` (the surrounding unit
of work rolls back). -/
def classifyTransactions (st : State) (uid : Nat) (transaction_ids : List Nat)
    (category_id : Nat) (custom_label : Option String) (create_rule : Bool)
    (rule_pattern : Option String) : Except String (State × ClassifyOut) :=
  match st.categories.find? (fun c => c.id == category_id) with
  | none => .ok (st, ⟨0, false⟩)
  | some _ =>
    let txns := st.transactions.filter (classifySel st uid transaction_ids)
    let st' := { st with transactions := st.transactions.map (fun t =>
      if classifySel st uid transaction_ids t then
        { t with category_id := some category_id
                 ai_confidence := some "user"
                 label_clean :=
                   match custom_label with
                   | some cl => if cl.data ≠ [] then some cl else t.label_clean
                   | none => t.label_clean }
      else t) }
    if create_rule ∧ ¬txns.isEmpty then
      .error "TypeError: create_rule_from_transaction() got an unexpected keyword argument pattern_override"
    else .ok (st', ⟨txns.length, false⟩)

/-- Cluster lookup of `apply_cluster` / `recluster`: the cluster joined
with its proposal, filtered on the caller's user id. -/
def findOwnedCluster (st : State) (uid : Nat) (cluster_id : Nat) :
    Option PCluster :=
  st.pclusters.find? (fun c =>
    c.id == cluster_id &&
      st.proposals.any (fun p => p.id == c.proposal_id && p.user_id == uid))

/-- `ClassificationService.apply_cluster`: ownership check, bulk
classification, cluster marked accepted, durable `TransactionCluster`
minted. -/
def applyCluster (st : State) (uid : Nat) (cluster_id : Nat)
    (transaction_ids : List Nat) (category_id : Nat) (create_rule : Bool)
    (rule_pattern : Option String) (custom_label : Option String) :
    Except String (State × ClassifyOut) :=
  match findOwnedCluster st uid cluster_id with
  | none => .error "404: Cluster introuvable ou acces refuse"
  | some cluster =>
    match classifyTransactions st uid transaction_ids category_id custom_label
        create_rule rule_pattern with
    | .error e => .error e
    | .ok (st1, result) =>
      let cluster' := { cluster with
        status := "accepted"
        override_category_id := some category_id
        rule_pattern :=
          match rule_pattern with
          | some rp => if rp.data ≠ [] then some rp else cluster.rule_pattern
          | none => cluster.rule_pattern
        custom_label :=
          match custom_label with
          | some cl => if cl.data ≠ [] then some cl else cluster.custom_label
          | none => cluster.custom_label }
      let st2 : State := { st1 with pclusters := st1.pclusters.map (fun c =>
        if c.id == cluster.id then cluster' else c) }
      let name :=
        match custom_label with
        | some cl => if cl.data ≠ [] then cl else cluster.representative_label
        | none => cluster.representative_label
      let tc : TCluster :=
        { id := (st2.tclusters.map (·.id)).foldr max 0 + 1
          user_id := uid, name := name, transaction_ids := transaction_ids
          category_id := some category_id, source := "classification"
          rule_pattern := rule_pattern, match_type := some "embedding" }
      .ok ({ st2 with tclusters := st2.tclusters ++ [tc] }, result)

/-! ## Category suggestion waterfall
(`embedding_service.suggest_category_for_transaction`) -/

/-- A category suggestion dict. -/
structure Suggestion where
  category_id : Nat
  category_name : Option String
  confidence : String
  similarity : Option ℚ
  source : String
  explanation : Option String
deriving DecidableEq, Repr

/-- Output shape of `_get_best_category_suggestion` (its `similarity`
key is always present). -/
structure CatSugg where
  category_id : Nat
  category_name : Option String
  confidence : String
  similarity : ℚ
deriving DecidableEq, Repr

def CatSugg.toSuggestion (c : CatSugg) : Suggestion :=
  ⟨c.category_id, c.category_name, c.confidence, some c.similarity,
   "category_semantics", none⟩

/-- Environment of one `suggest_category_for_transaction` call: the
similarity-search and network sub-calls are oracle inputs, the control
flow around them is the code under verification. -/
structure WaterfallEnv where
  embedding_present : Bool
  prefer_threshold : ℚ
  category_threshold : ℚ
  cat_suggestion : Option CatSugg
  classified_nonempty : Bool
  knn_suggestion : Option Suggestion
  llm_enabled : Bool
  llm_available : Bool
  llm_suggestion : Option Suggestion
deriving DecidableEq, Repr

/-- `EmbeddingService.suggest_category_for_transaction`, line for line:
the category-semantics suggestion is computed up front and preferred
outright above `embedding_category_prefer_threshold`; then k-NN; then —
whenever the LLM is enabled and reachable — the LLM answer is returned
as is (even when empty); the category-semantics fallback above
`embedding_category_threshold` is only reached when the LLM was not
consulted. -/
def suggestCategoryForTransaction (e : WaterfallEnv) : Option Suggestion :=
  if !e.embedding_present then none
  else
    match e.cat_suggestion with
    | some s =>
      if e.prefer_threshold ≤ s.similarity then some s.toSuggestion
      else suggestAfterPrefer e
    | none => suggestAfterPrefer e
where
  suggestAfterPrefer (e : WaterfallEnv) : Option Suggestion :=
    -- Strategy 1: k-NN on classified transactions
    match (if e.classified_nonempty then e.knn_suggestion else none) with
    | some s => some s
    | none =>
      -- Strategy 2: LLM classification (its result is returned as is)
      if e.llm_enabled ∧ e.llm_available then e.llm_suggestion
      else
        -- Strategy 3: category semantics above the threshold
        match e.cat_suggestion with
        | some s =>
          if e.category_threshold ≤ s.similarity then some s.toSuggestion
          else none
        | none => none

/-- The waterfall as the specification words it: nearest-neighbour vote
first, then the category-semantics fallback (above its floor), then LLM
delegation, stopping at the first strategy that yields a suggestion,
with only the prefer-category-semantics short-circuit ahead of step 1. -/
def specSuggestWaterfall (e : WaterfallEnv) : Option Suggestion :=
  if !e.embedding_present then none
  else
    let shortCircuit : Option Suggestion :=
      match e.cat_suggestion with
      | some s =>
        if e.prefer_threshold ≤ s.similarity then some s.toSuggestion else none
      | none => none
    let step1 : Option Suggestion :=
      if e.classified_nonempty then e.knn_suggestion else none
    let step2 : Option Suggestion :=
      match e.cat_suggestion with
      | some s =>
        if e.category_threshold ≤ s.similarity then some s.toSuggestion else none
      | none => none
    let step3 : Option Suggestion :=
      if e.llm_enabled ∧ e.llm_available then e.llm_suggestion else none
    shortCircuit <|> step1 <|> step2 <|> step3

/-! ## JSON (`json.loads` on the subset the LLM contracts use:
objects, arrays, strings with simple escapes, integers, booleans,
null) -/

inductive Json where
  | jnull
  | jbool (b : Bool)
  | jnum (n : Int)
  | jstr (s : String)
  | jarr (xs : List Json)
  | jobj (fields : List (String × Json))

def isJsonWs (c : Char) : Bool :=
  c == ' ' || c == '\t' || c == '\n' || c == '\r'

def jsonWs (s : Chars) : Chars := s.dropWhile isJsonWs

/-- JSON string body: plain characters and the escapes
`\" \\ \/ \n \t \r`; other escapes are outside the modelled subset. -/
def pStr : Nat → Chars → Option (Chars × Chars)
  | 0, _ => none
  | _ + 1, '"' :: rest => some ([], rest)
  | fuel + 1, '\\' :: e :: rest =>
    let c? : Option Char :=
      if e == '"' then some '"'
      else if e == '\\' then some '\\'
      else if e == '/' then some '/'
      else if e == 'n' then some '\n'
      else if e == 't' then some '\t'
      else if e == 'r' then some '\r'
      else none
    match c?, pStr fuel rest with
    | some c, some (body, r) => some (c :: body, r)
    | _, _ => none
  | fuel + 1, c :: rest =>
    match pStr fuel rest with
    | some (body, r) => some (c :: body, r)
    | none => none
  | _ + 1, [] => none

/-- JSON integer (`0 | [1-9][0-9]*` with optional minus); a fraction or
exponent part is outside the modelled subset. -/
def pNum (s : Chars) : Option (Int × Chars) :=
  let (neg, s1) := match s with
    | '-' :: r => (true, r)
    | _ => (false, s)
  let ds := s1.takeWhile Char.isDigit
  let rest := s1.dropWhile Char.isDigit
  if ds.isEmpty then none
  else if ds.length > 1 ∧ ds.head? = some '0' then none
  else
    match rest with
    | '.' :: _ => none
    | 'e' :: _ => none
    | 'E' :: _ => none
    | _ =>
      let v : Int := Int.ofNat (valNat ds)
      some (if neg then -v else v, rest)

mutual

def pVal : Nat → Chars → Option (Json × Chars)
  | 0, _ => none
  | fuel + 1, s =>
    match jsonWs s with
    | 'n' :: 'u' :: 'l' :: 'l' :: r => some (.jnull, r)
    | 't' :: 'r' :: 'u' :: 'e' :: r => some (.jbool true, r)
    | 'f' :: 'a' :: 'l' :: 's' :: 'e' :: r => some (.jbool false, r)
    | '"' :: r =>
      match pStr (fuel + 1) r with
      | some (body, rest) => some (.jstr ⟨body⟩, rest)
      | none => none
    | '[' :: r =>
      (match jsonWs r with
       | ']' :: r2 => some (.jarr [], r2)
       | _ => pArrItems fuel (jsonWs r) [])
    | '\x7b' :: r =>
      (match jsonWs r with
       | '\x7d' :: r2 => some (.jobj [], r2)
       | _ => pObjItems fuel (jsonWs r) [])
    | s' => (pNum s').map fun (n, rest) => (.jnum n, rest)

def pArrItems : Nat → Chars → List Json → Option (Json × Chars)
  | 0, _, _ => none
  | fuel + 1, s, acc =>
    match pVal fuel s with
    | none => none
    | some (v, rest) =>
      match jsonWs rest with
      | ',' :: r2 => pArrItems fuel (jsonWs r2) (acc ++ [v])
      | ']' :: r2 => some (.jarr (acc ++ [v]), r2)
      | _ => none

def pObjItems : Nat → Chars → List (String × Json) → Option (Json × Chars)
  | 0, _, _ => none
  | fuel + 1, s, acc =>
    match jsonWs s with
    | '"' :: r =>
      (match pStr (fuel + 1) r with
       | none => none
       | some (key, rest) =>
         match jsonWs rest with
         | ':' :: r2 =>
           (match pVal fuel (jsonWs r2) with
            | none => none
            | some (v, rest2) =>
              match jsonWs rest2 with
              | ',' :: r3 => pObjItems fuel (jsonWs r3) (acc ++ [(⟨key⟩, v)])
              | '\x7d' :: r3 => some (.jobj (acc ++ [(⟨key⟩, v)]), r3)
              | _ => none)
         | _ => none)
    | _ => none

end

/-- `json.loads`: one value, surrounding whitespace allowed, nothing
else.  (`LLMService._try_parse_json` wraps this in a `try`.) -/
def jsonLoads (text : String) : Option Json :=
  match pVal (2 * text.data.length + 8) text.data with
  | some (j, rest) => if (jsonWs rest).isEmpty then some j else none
  | none => none

/-- Python truthiness of a decoded JSON value. -/
def pyTruthy : Json → Bool
  | .jnull => false
  | .jbool b => b
  | .jnum n => n != 0
  | .jstr s => !s.data.isEmpty
  | .jarr xs => !xs.isEmpty
  | .jobj fs => !fs.isEmpty

/-- `dict.get(key)`: the last binding wins (later duplicate keys
override earlier ones in `json.loads`). -/
def jGet (fields : List (String × Json)) (key : String) : Option Json :=
  (fields.reverse.find? (fun kv => kv.1 == key)).map (·.2)

/-- Python `int(x)` on a decoded JSON value: `Option` models the
`ValueError`/`TypeError` the sources catch around each use. -/
def pyToInt : Json → Option Int
  | .jnum n => some n
  | .jbool b => some (if b then 1 else 0)
  | .jstr s =>
    let t := pyStrip s.data
    let (neg, t1) := match t with
      | '-' :: r => (true, r)
      | '+' :: r => (false, r)
      | _ => (false, t)
    if t1 ≠ [] ∧ t1.all Char.isDigit then
      some (if neg then -(Int.ofNat (valNat t1)) else Int.ofNat (valNat t1))
    else none
  | _ => none

/-- Python `str.lower()` over our ASCII model, on `String`. -/
def pyLower (s : String) : String := ⟨lowStr s.data⟩

/-- Python `str(x)` for the label coercion in
`_parse_subclusters_response`; only the scalar cases are rendered (the
claims never exercise container labels). -/
def pyStr : Json → String
  | .jnull => "None"
  | .jbool b => if b then "True" else "False"
  | .jnum n => ⟨(if n < 0 then ['-'] else []) ++ Nat.toDigits 10 n.natAbs⟩
  | .jstr s => s
  | .jarr _ => ""
  | .jobj _ => ""

/-! ## LLM response parsing (`llm_service.py`) -/

def isBrace (c : Char) : Bool := c == '\x7b' || c == '\x7d'

/-- One attempt of the flat-object regex used by `_parse_response`: an
opening brace, one or more non-brace characters, a closing brace. -/
def flatJsonHere (s : Chars) : Option Chars :=
  match s with
  | '\x7b' :: r =>
    let run := r.takeWhile (fun c => !isBrace c)
    let rest := r.dropWhile (fun c => !isBrace c)
    match rest with
    | '\x7d' :: _ => if run.isEmpty then none else some ('\x7b' :: run ++ ['\x7d'])
    | _ => none
  | _ => none

/-- `re.search` of the flat-object regex: leftmost match. -/
def flatJsonFind : Chars → Option Chars
  | [] => none
  | c :: t =>
    match flatJsonHere (c :: t) with
    | some m => some m
    | none => flatJsonFind t

/-- Walk of the one-level-nested object regex body: non-braces, any
number of complete single-level inner objects amid non-braces, then the
closing brace; returns the matched span (fuelled recursion). -/
def nestedJsonGo : Nat → Chars → Option Chars
  | 0, _ => none
  | fuel + 1, r =>
    let run := r.takeWhile (fun c => !isBrace c)
    let rest := r.dropWhile (fun c => !isBrace c)
    match rest with
    | '\x7d' :: _ => some (run ++ ['\x7d'])
    | '\x7b' :: r2 =>
      let run2 := r2.takeWhile (fun c => !isBrace c)
      let rest2 := r2.dropWhile (fun c => !isBrace c)
      (match rest2 with
       | '\x7d' :: r3 =>
         (nestedJsonGo fuel r3).map fun body =>
           run ++ '\x7b' :: run2 ++ '\x7d' :: body
       | _ => none)
    | _ => none

/-- One attempt of the one-level-nested object regex used by
`_parse_subclusters_response` (DOTALL): an opening brace, non-braces,
any number of complete single-level inner objects amid non-braces, a
closing brace. -/
def nestedJsonHere (s : Chars) : Option Chars :=
  match s with
  | '\x7b' :: r => (nestedJsonGo (r.length + 1) r).map fun body => '\x7b' :: body
  | _ => none

def nestedJsonFind : Chars → Option Chars
  | [] => none
  | c :: t =>
    match nestedJsonHere (c :: t) with
    | some m => some m
    | none => nestedJsonFind t

/-- `LLMService._try_parse_json` (the `try` around `json.loads`). -/
def tryParseJson (text : String) : Option Json := jsonLoads text

/-- Shared JSON extraction of the two response parsers: direct parse
of the whole text; when that fails or parses to a falsy value, parse
the first regex-extracted object instead. -/
def extractJson (text : Chars) (finder : Chars → Option Chars) : Option Json :=
  match tryParseJson ⟨text⟩ with
  | some j =>
    if pyTruthy j then some j
    else (finder text).bind fun m => tryParseJson ⟨m⟩
  | none => (finder text).bind fun m => tryParseJson ⟨m⟩

/-- `LLMService._parse_response`: direct parse, then flat-object regex
extraction, then `category_id` validation against the category list with
a case-insensitive name fallback.  `Except.error` models the uncaught
`AttributeError` raised when the decoded JSON is not an object (or a
consulted `category_name` is not a string). -/
def parseResponse (response_text : String) (categories : List (Nat × String)) :
    Except String (Option Suggestion) :=
  let text := pyStrip response_text.data
  match extractJson text flatJsonFind with
  | none => .ok none
  | some j =>
    if !pyTruthy j then .ok none
    else
      match j with
      | .jobj fs =>
        (match jGet fs "category_id" with
         | none => .ok none
         | some .jnull => .ok none
         | some catIdJson =>
           let memId : Option Nat :=
             match catIdJson with
             | .jnum n =>
               if 0 ≤ n ∧ categories.any (fun c => (c.1 : Int) == n) then some n.toNat
               else none
             | .jbool b =>
               let v := if b then 1 else 0
               if categories.any (fun c => c.1 == v) then some v else none
             | _ => none
           let resolved : Except String (Option Nat) :=
             match memId with
             | some v => .ok (some v)
             | none =>
               -- fallback: case-insensitive match on category_name
               match categories with
               | [] => .ok none
               | _ :: _ =>
                 match jGet fs "category_name" with
                 | none =>
                   .ok ((categories.find? (fun c => pyLower c.2 == "")).map (·.1))
                 | some (.jstr s) =>
                   .ok ((categories.find? (fun c =>
                     pyLower c.2 == pyLower s)).map (·.1))
                 | some _ => .error "AttributeError: lower"
           match resolved with
           | .error e => .error e
           | .ok none => .ok none
           | .ok (some cid) =>
             let catName : Option String :=
               (categories.find? (fun c => c.1 == cid)).map (·.2)
             let confidence :=
               match jGet fs "confidence" with
               | some (.jstr s) =>
                 if s = "high" ∨ s = "medium" ∨ s = "low" then s else "medium"
               | none => "medium"
               | some _ => "medium"
             let explanation :=
               match jGet fs "explanation" with
               | none => ""
               | some e => pyStr e
             .ok (some
               { category_id := cid, category_name := catName
                 confidence := confidence, similarity := none
                 source := "llm", explanation := some explanation }))
      | _ => .error "AttributeError: object has no attribute get"

/-- One parsed sub-cluster of `_parse_subclusters_response`. -/
structure SubC where
  transaction_ids : List Int
  representative_label : String
  suggested_category_id : Option Nat
  suggested_category_name : Option String
deriving DecidableEq, Repr

/-- Distinct values in first-occurrence order (Python dict/set insertion
order, used for `cluster_map` and for the `valid_ids` set). -/
def distinctLabels (labels : List Int) : List Int :=
  labels.foldl (fun acc l => if acc.contains l then acc else acc ++ [l]) []

/-- The id allow-list of `_parse_subclusters_response` (a Python set;
modelled as a duplicate-free list in first-occurrence order). -/
def validTxnIds (transactions : List TxnSnap) : List Int :=
  distinctLabels (transactions.map (fun t => (t.id : Int)))

/-- Per-item processing of `_parse_subclusters_response`: skipped items
(`continue`) become `none`. -/
def subCOf (valid_ids : List Int) (categories : List (Nat × String))
    (sc : Json) : Option SubC :=
  let idsRaw : Option Json :=
    match sc with
    | .jobj fs => jGet fs "ids"
    | _ => none
  match idsRaw with
  | some (.jarr xs) =>
    let ids := xs.filterMap fun x =>
      (pyToInt x).bind fun xi =>
        if valid_ids.contains xi then some xi else none
    if ids.isEmpty then none
    else
      let fs := match sc with | .jobj fs => fs | _ => []
      let label : String :=
        match jGet fs "representative_label" with
        | some j => pyStr j
        | none => ""
      let (catId, catName) : Option Nat × Option String :=
        if categories.isEmpty then (none, none)
        else
          let fromId : Option (Nat × String) :=
            match jGet fs "category_id" with
            | none => none
            | some .jnull => none
            | some j =>
              (pyToInt j).bind fun cid =>
                if 0 ≤ cid then
                  (categories.find? (fun c => (c.1 : Int) == cid)).map
                    (fun c => (c.1, c.2))
                else none
          match fromId with
          | some (i, n) => (some i, some n)
          | none =>
            match jGet fs "category_name" with
            | some (.jstr s) =>
              if s.data ≠ [] then
                -- `cat_by_name`: a dict comprehension, later entries win
                match categories.reverse.find? (fun c =>
                    pyLower c.2 == pyLower ⟨pyStrip s.data⟩) with
                | some c => (some c.1, some c.2)
                | none => (none, none)
              else (none, none)
            | _ => (none, none)
      some
        { transaction_ids := ids
          representative_label :=
            if (pyStrip label.data).isEmpty then "Sous-groupe"
            else ⟨pyStrip label.data⟩
          suggested_category_id := catId
          suggested_category_name := catName }
  | _ => none

/-- Tail of `_parse_subclusters_response` after the `subclusters` list
is in hand: per-item filtering, then assignment of the orphan ids (the
allow-list minus every used id) to the first sub-group. -/
def assembleSubC (valid_ids : List Int) (categories : List (Nat × String))
    (items : List Json) : Option (List SubC) :=
  let result := items.filterMap (subCOf valid_ids categories)
  match result with
  | [] => none
  | r0 :: rest =>
    let used := ((r0 :: rest).map (·.transaction_ids)).flatten
    let orphan := valid_ids.filter (fun v => !used.contains v)
    if orphan.isEmpty then some (r0 :: rest)
    else some ({ r0 with transaction_ids := r0.transaction_ids ++ orphan } :: rest)

/-- `LLMService._parse_subclusters_response`: JSON extraction
(one-level-nested object regex as fallback), id filtering against the
cluster's transactions, category validation, and assignment of orphan
ids to the first sub-group. -/
def parseSubclusters (response_text : String) (transactions : List TxnSnap)
    (categories : List (Nat × String)) : Except String (Option (List SubC)) :=
  let valid_ids := validTxnIds transactions
  let text := pyStrip response_text.data
  match extractJson text nestedJsonFind with
  | none => .ok none
  | some j =>
    if !pyTruthy j then .ok none
    else
      match j with
      | .jobj fs =>
        (match jGet fs "subclusters" with
         | some (.jarr items) =>
           if items.length < 1 then .ok none
           else
             match assembleSubC valid_ids categories items with
             | none => .ok none
             | some scs => .ok (some scs)
         | _ => .ok none)
      | _ => .error "AttributeError: object has no attribute get"

/-- `LLMService.suggest_subclusters` given the raw network reply as an
oracle (`none` models an unreachable service or empty reply); every
exception from the parse collapses to `(None, None)`. -/
def suggestSubclusters (raw : Option String) (transactions : List TxnSnap)
    (categories : List (Nat × String)) :
    Option String × Option (List SubC) :=
  match raw with
  | none => (none, none)
  | some text =>
    if text.data.isEmpty then (none, none)
    else
      match parseSubclusters ⟨pyStrip text.data⟩ transactions categories with
      | .ok p => (some ⟨pyStrip text.data⟩, p)
      | .error _ => (none, none)

/-! ## Clustering pipeline (`embedding_service.get_clusters`,
`cluster_transaction_subset`) -/

/-- Minimum-size enforcement of `get_clusters`: members of groups
smaller than `min_size` are re-labelled `-1` (noise). -/
def relabelSmall (minSize : Nat) (labels : List Int) : List Int :=
  labels.map fun l => if labels.count l < minSize then -1 else l

/-- `cluster_map`: for each non-noise label in first-occurrence order,
the ascending member indices. -/
def groupIndices (labels : List Int) : List (Int × List Nat) :=
  (distinctLabels labels).filterMap fun l =>
    if l == -1 then none
    else some (l, (List.range labels.length).filter fun i => labels.get? i == some l)

/-- Display label of a transaction inside a cluster: the parsed
counterparty when truthy, else the raw label. -/
def displayLabel (t : Txn) : String :=
  match t.parsed_metadata with
  | some pm =>
    match pm.counterparty with
    | some cp => if cp.data ≠ [] then cp else t.label_raw
    | none => t.label_raw
  | none => t.label_raw

/-- Insertion-ordered counting dict (`label_counts`). -/
def countsInOrder (ls : List String) : List (String × Nat) :=
  ls.foldl (fun acc l =>
    if acc.any (fun kv => kv.1 == l) then
      acc.map (fun kv => if kv.1 == l then (kv.1, kv.2 + 1) else kv)
    else acc ++ [(l, 1)]) []

/-- `max(label_counts, key=label_counts.get)`: the first key attaining
the maximal count, in insertion order. -/
def firstMaxKey (counts : List (String × Nat)) (dflt : String) : String :=
  match counts with
  | [] => dflt
  | kv :: rest =>
    (rest.foldl (fun best next => if best.2 < next.2 then next else best) kv).1

def representativeOf (txns : List Txn) : String :=
  firstMaxKey (countsInOrder (txns.map displayLabel)) ""

def totalAbsOf (txns : List Txn) : Int := (txns.map (fun t => |t.amount|)).sum

/-- Rational centroid of the cluster's embedding rows
(`cluster_embs.mean(axis=0)`). -/
def centroidOf (embs : List (List ℚ)) : List ℚ :=
  match embs with
  | [] => []
  | e0 :: _ =>
    (List.range e0.length).map fun k =>
      ((embs.map (fun e => e.getD k 0)).sum) / embs.length

/-- The sort key comparison of `get_clusters`
(`key=(-total_abs, -count)`, Python `sorted` is stable). -/
def clusterLe (txns : List Txn) (g1 g2 : Int × List Nat) : Bool :=
  let t1 := totalAbsOf (g1.2.filterMap (txns.get? ·))
  let t2 := totalAbsOf (g2.2.filterMap (txns.get? ·))
  (t2 < t1) || (t1 == t2 && g2.2.length ≤ g1.2.length)

/-- One output cluster dict (`cluster_id` is absent in the
`cluster_transaction_subset` variant). -/
structure ClusterOut where
  cluster_id : Option Int
  transaction_count : Nat
  total_amount_abs : Int
  transaction_ids : List Nat
  sample_transactions : List TxnSnap
  transactions : List TxnSnap
  representative_label : String
  suggested_category_id : Option Nat
  suggested_category_name : Option String
  suggestion_confidence : Option String
  suggestion_similarity : Option ℚ
  suggestion_source : Option String
  suggestion_explanation : Option String
deriving DecidableEq, Repr

structure GetClustersOut where
  clusters : List ClusterOut
  unclustered_count : Nat
  total_uncategorized : Nat
deriving DecidableEq, Repr

/-- Oracle environment of the clustering pipeline: the agglomerative
step over the cosine-distance matrix (external, real-valued) is a
function of the embedding rows and threshold; the similarity-search and
network sub-calls are oracles keyed by their actual arguments. -/
structure ClusterEnv where
  fitPredict : List (List ℚ) → ℚ → List Int
  classified_nonempty : Bool
  knn : List ℚ → Option Suggestion
  llm_enabled : Bool
  llm_available : Bool
  llm_suggest : String → List TxnSnap → Option Suggestion

def applySuggestion (c : ClusterOut) (s : Suggestion) : ClusterOut :=
  { c with
    suggested_category_id := some s.category_id
    suggested_category_name := s.category_name
    suggestion_confidence := some s.confidence
    suggestion_similarity := s.similarity
    suggestion_source := some s.source
    suggestion_explanation := s.explanation }

/-- One cluster dict of the first `get_clusters` assembly loop; k-NN is
attempted through the centroid when classified transactions exist. -/
def buildPass1 (env : ClusterEnv) (txns : List Txn)
    (embeddings : List (List ℚ)) (withId : Bool) (g : Int × List Nat) :
    ClusterOut :=
  let ctxns := g.2.filterMap (txns.get? ·)
  let allSnaps := ctxns.map toSnap
  let base : ClusterOut :=
    { cluster_id := if withId then some g.1 else none
      transaction_count := ctxns.length
      total_amount_abs := totalAbsOf ctxns
      transaction_ids := ctxns.map (·.id)
      sample_transactions := allSnaps.take 5
      transactions := allSnaps
      representative_label := representativeOf ctxns
      suggested_category_id := none, suggested_category_name := none
      suggestion_confidence := none, suggestion_similarity := none
      suggestion_source := none, suggestion_explanation := none }
  match (if env.classified_nonempty then
      env.knn (centroidOf (g.2.filterMap (embeddings.get? ·)))
    else none) with
  | some s => applySuggestion base s
  | none => base

/-- One step of the second `get_clusters` loop: clusters that got no
suggestion ask the language model. -/
def buildLlmPass (env : ClusterEnv) (c : ClusterOut) : ClusterOut :=
  if c.suggestion_source = none then
    match env.llm_suggest c.representative_label c.sample_transactions with
    | some s => applySuggestion c s
    | none => c
  else c

/-- Shared cluster-dict construction plus the two suggestion passes
(k-NN at build time, then the LLM pass over clusters that got no
suggestion). -/
def buildClusters (env : ClusterEnv) (txns : List Txn)
    (embeddings : List (List ℚ)) (groups : List (Int × List Nat))
    (withId : Bool) : List ClusterOut :=
  let pass1 := groups.map (buildPass1 env txns embeddings withId)
  if env.llm_enabled ∧ env.llm_available then pass1.map (buildLlmPass env)
  else pass1

/-- Scope of `get_clusters`: uncategorized, embedded, non-deleted
transactions of the user (optionally one account). -/
def clusterScope (st : State) (uid : Nat) (account_id : Option Nat) (t : Txn) :
    Bool :=
  userOwns st uid t && !t.deleted && t.category_id == none &&
    t.embedding != none &&
    (match account_id with | some aid => t.account_id == aid | none => true)

def uncatOf (st : State) (uid : Nat) (account_id : Option Nat) : List Txn :=
  st.transactions.filter (clusterScope st uid account_id)

/-- The embedding matrix rows passed to the clusterer. -/
def embRowsOf (txns : List Txn) : List (List ℚ) :=
  txns.map fun t => t.embedding.getD []

/-- `EmbeddingService.get_clusters`. -/
def getClusters (env : ClusterEnv) (st : State) (uid : Nat)
    (account_id : Option Nat) (minSize : Nat) (threshold : ℚ) :
    GetClustersOut :=
  let uncat := uncatOf st uid account_id
  if uncat.isEmpty then ⟨[], 0, 0⟩
  else
    let total := (st.transactions.filter fun t =>
      userOwns st uid t && !t.deleted && t.category_id == none &&
        (match account_id with
         | some aid => t.account_id == aid
         | none => true)).length
    if uncat.length < minSize then ⟨[], uncat.length, total⟩
    else
      let embeddings := embRowsOf uncat
      let labels := env.fitPredict embeddings threshold
      let labels' := relabelSmall minSize labels
      let groups := (groupIndices labels').insertionSort
        (fun g1 g2 => clusterLe uncat g1 g2 = true)
      let clusters := buildClusters env uncat embeddings groups true
      ⟨clusters, labels'.count (-1), total⟩

/-- Scope of `cluster_transaction_subset`: the requested ids, still
uncategorized, embedded, not deleted, owned by the user. -/
def subsetScope (st : State) (uid : Nat) (transaction_ids : List Nat) (t : Txn) :
    Bool :=
  transaction_ids.contains t.id && userOwns st uid t && !t.deleted &&
    t.category_id == none && t.embedding != none

/-- `EmbeddingService.cluster_transaction_subset` (default
`min_cluster_size=1`: singletons allowed). -/
def clusterSubset (env : ClusterEnv) (st : State) (uid : Nat)
    (transaction_ids : List Nat) (threshold : ℚ) (minSize : Nat) :
    List ClusterOut :=
  if transaction_ids.isEmpty then []
  else
    let txns := st.transactions.filter (subsetScope st uid transaction_ids)
    if txns.length < 2 then []
    else
      let embeddings := embRowsOf txns
      let labels := env.fitPredict embeddings threshold
      let labels' := relabelSmall minSize labels
      let groups := (groupIndices labels').insertionSort
        (fun g1 g2 => clusterLe txns g1 g2 = true)
      buildClusters env txns embeddings groups false

/-! ## Targeted re-clustering (`classification_service.recluster`) -/

/-- `ORDER BY parent_id NULLS FIRST, name` of the category queries. -/
def catOrderLe (a b : Category) : Bool :=
  match a.parent_id, b.parent_id with
  | none, none => decide (a.name ≤ b.name)
  | none, some _ => true
  | some _, none => false
  | some x, some y => x < y || (x == y && decide (a.name ≤ b.name))

/-- `_get_enriched_categories`: leaf categories (no child points at
them) of the system plus the user, as `(id, name)` — the fields the
response parsers consult. -/
def enrichedCats (st : State) (uid : Nat) : List (Nat × String) :=
  let all := (st.categories.filter fun c =>
    c.is_system || c.user_id == some uid).insertionSort
      (fun a b => catOrderLe a b = true)
  let parentIds := all.filterMap (·.parent_id)
  (all.filter fun c => !parentIds.contains c.id).map fun c => (c.id, c.name)

/-- The enrichment step of `recluster` on one parsed sub-cluster:
the stored ids stay the parser's ids, the snapshots come from the
fetched rows; a sub-cluster none of whose ids resolve is dropped. -/
def enrichSubC (txnsFromDb : List Txn) (sc : SubC) : Option ClusterOut :=
  let ctxns := sc.transaction_ids.filterMap fun i =>
    txnsFromDb.find? fun t => (t.id : Int) == i
  if ctxns.isEmpty then none
  else some
    { cluster_id := none
      transaction_count := sc.transaction_ids.length
      total_amount_abs := totalAbsOf ctxns
      transaction_ids := sc.transaction_ids.map (·.toNat)
      sample_transactions := []
      transactions := ctxns.map toSnap
      representative_label := sc.representative_label
      suggested_category_id := sc.suggested_category_id
      suggested_category_name := sc.suggested_category_name
      suggestion_confidence := some "medium"
      suggestion_similarity := none
      suggestion_source := some "llm_fragment"
      suggestion_explanation := none }

/-- The transaction fetch of the LLM branch of `recluster`: the
cluster's ids, restricted to rows owned by the caller. -/
def splitTxnsFromDb (st : State) (uid : Nat) (txn_ids : List Nat) : List Txn :=
  st.transactions.filter fun t => txn_ids.contains t.id && userOwns st uid t

/-- One inserted row of `recluster`'s success path: sub-cluster `p.2`
at offset `p.1`, placed after the previous ids and position indices. -/
def newPCluster (pid : Nat) (baseId : Nat) (maxIdx : Int) (p : Nat × ClusterOut) :
    PCluster :=
  { id := baseId + 1 + p.1
    proposal_id := pid
    cluster_index := maxIdx + 1 + p.1
    representative_label := p.2.representative_label
    transaction_ids := p.2.transaction_ids
    transactions := p.2.transactions
    transaction_count := p.2.transaction_count
    total_amount_abs := p.2.total_amount_abs
    suggested_category_id := p.2.suggested_category_id
    suggested_category_name := p.2.suggested_category_name
    suggestion_confidence := p.2.suggestion_confidence
    suggestion_source := p.2.suggestion_source
    suggestion_explanation := p.2.suggestion_explanation
    status := "pending"
    override_category_id := none
    rule_pattern := none
    custom_label := none
    excluded_ids := none }

/-- `ClassificationService.recluster`: rejects clusters of fewer than
two transactions; prefers an LLM semantic split (kept only when it
yields at least two enriched sub-groups); falls back to the
tighter-threshold embedding split; on success deletes the original
cluster row and inserts the sub-clusters at the next free position
indices.  Returns the new store and the debug `method`. -/
def recluster (env : ClusterEnv)
    (llmSubRaw : List TxnSnap → String → Option String) (st : State)
    (uid : Nat) (cluster_id : Nat) (distance_threshold : Option ℚ)
    (use_llm : Bool) : Except String (State × String) :=
  match findOwnedCluster st uid cluster_id with
  | none => .error "404: Cluster introuvable ou acces refuse"
  | some cluster =>
    match st.proposals.find? (fun p => p.id == cluster.proposal_id) with
    | none => .error "404: Proposition introuvable"
    | some prop =>
      let txn_ids := cluster.transaction_ids
      if txn_ids.length < 2 then
        .error "400: Un cluster de moins de deux transactions ne peut pas etre fragmente"
      else
        let llmResult : Option (List ClusterOut) :=
          if use_llm ∧ env.llm_available then
            let txnsFromDb := splitTxnsFromDb st uid txn_ids
            let tdata := txnsFromDb.map toSnap
            if tdata.isEmpty then none
            else
              match (suggestSubclusters
                  (llmSubRaw tdata cluster.representative_label) tdata
                  (enrichedCats st uid)).2 with
              | none => none
              | some scs =>
                let enriched := scs.filterMap (enrichSubC txnsFromDb)
                if 2 ≤ enriched.length then some enriched else none
          else none
        let methodSub : List ClusterOut × String :=
          match llmResult with
          | some scs => (scs, "llm")
          | none =>
            let t0 := match distance_threshold with
              | some t => t
              | none => prop.distance_threshold / 2
            let thr := max (2/25 : ℚ) (min t0 (1/2))
            (clusterSubset env st uid txn_ids thr 1, "embedding")
        if methodSub.1.isEmpty then .ok (st, methodSub.2)
        else
          let others := st.pclusters.filter fun c => !(c.id == cluster.id)
          let maxIdx : Int := ((st.pclusters.filter fun c =>
            c.proposal_id == prop.id && !(c.id == cluster.id)).map
              (·.cluster_index)).foldr max (-1)
          let baseId := (st.pclusters.map (·.id)).foldr max 0
          let newClusters := methodSub.1.enum.map (newPCluster prop.id baseId maxIdx)
          .ok ({ st with pclusters := others ++ newClusters }, methodSub.2)

/-! ## Concrete fixtures for the theorems below -/

def acct1 : Account := ⟨1, 1⟩

def txnOf (id : Nat) (label : String) (amount : Int) : Txn :=
  { id := id, account_id := 1, label_raw := label, label_clean := none
    amount := amount, date := "2026-01-10", category_id := none
    ai_confidence := none, embedding := some [1, 0], parsed_metadata := none
    deleted := false }

def catCourses : Category := ⟨7, "Courses", none, true, none⟩

/-- Store for the rule-precedence example: the two AMAZON rules are held
in ascending priority order so the `ORDER BY priority DESC` matters. -/
def ruleAmazon : Rule :=
  ⟨1, 1, "AMAZON", "contains", 100, none, 5, true, "manual"⟩

def ruleAmazonPrime : Rule :=
  ⟨2, 1, "AMAZON PRIME", "contains", 200, none, 10, true, "manual"⟩

def st6 : State :=
  { accounts := [acct1], categories := [catCourses]
    transactions := [txnOf 1 "AMAZON PRIME VIDEO" (-10)]
    rules := [ruleAmazon, ruleAmazonPrime]
    proposals := [], pclusters := [], tclusters := [] }

/-- Store with one valid category, one account, one transaction. -/
def st2 : State :=
  { accounts := [acct1], categories := [catCourses]
    transactions := [txnOf 1 "CARREFOUR MARKET" (-20)]
    rules := [], proposals := [], pclusters := [], tclusters := [] }

/-- Store for the apply-cluster evaluation: a proposal cluster exists. -/
def pc10 : PCluster :=
  { id := 10, proposal_id := 1, cluster_index := 0
    representative_label := "CARREFOUR", transaction_ids := [1]
    transactions := [toSnap (txnOf 1 "CARREFOUR MARKET" (-20))]
    transaction_count := 1, total_amount_abs := 20
    suggested_category_id := none, suggested_category_name := none
    suggestion_confidence := none, suggestion_source := none
    suggestion_explanation := none, status := "pending"
    override_category_id := none, rule_pattern := none, custom_label := none
    excluded_ids := none }

def prop1 : Proposal := ⟨1, 1, 1, 1, 1, 0⟩

def st5 : State :=
  { accounts := [acct1], categories := [catCourses]
    transactions := [txnOf 1 "CARREFOUR MARKET" (-20)]
    rules := [], proposals := [prop1], pclusters := [pc10], tclusters := [] }

/-- Waterfall environment refuting the spec order: category semantics
below the prefer threshold but above the floor, no k-NN answer, LLM
enabled and reachable with an answer. -/
def cs3 : CatSugg := ⟨7, some "Courses", "medium", 50⟩

def llmSugg3 : Suggestion := ⟨9, some "Transport", "high", none, "llm", none⟩

def env3 : WaterfallEnv :=
  { embedding_present := true, prefer_threshold := 62
    category_threshold := 40, cat_suggestion := some cs3
    classified_nonempty := false, knn_suggestion := none
    llm_enabled := true, llm_available := true
    llm_suggestion := some llmSugg3 }

/-- Waterfall environment where the prefer short-circuit fires. -/
def env3b : WaterfallEnv :=
  { env3 with cat_suggestion := some { cs3 with similarity := 70 } }

/-- Cluster-pipeline environment for the C9 witness: the agglomerative
oracle puts the first two points together and isolates the last two. -/
def env9 : ClusterEnv :=
  { fitPredict := fun _ _ => [0, 0, 1, 2]
    classified_nonempty := false, knn := fun _ => none
    llm_enabled := false, llm_available := false
    llm_suggest := fun _ _ => none }

def st9 : State :=
  { accounts := [acct1], categories := [catCourses]
    transactions :=
      [txnOf 1 "EDF FACTURE" (-30), txnOf 2 "EDF FACTURE" (-40),
       txnOf 3 "SNCF BILLET" (-100), txnOf 4 "BOULANGERIE" (-5)]
    rules := [], proposals := [], pclusters := [], tclusters := [] }

/-- Split fixtures: a three-transaction cluster under proposal 1. -/
def pcSplit : PCluster :=
  { pc10 with id := 10, transaction_ids := [1, 2, 3], transaction_count := 3
              representative_label := "DIVERS" }

def stSplit : State :=
  { accounts := [acct1], categories := [catCourses]
    transactions :=
      [txnOf 1 "ALPHA" (-10), txnOf 2 "BETA" (-20), txnOf 3 "GAMMA" (-30)]
    rules := [], proposals := [prop1], pclusters := [pcSplit], tclusters := [] }

/-- Environment with the language model reachable (the embedding oracle
is never consulted on the LLM path). -/
def envLlm : ClusterEnv :=
  { fitPredict := fun _ _ => [], classified_nonempty := false
    knn := fun _ => none, llm_enabled := false, llm_available := true
    llm_suggest := fun _ _ => none }

/-- An LLM reply that lists transaction 2 in both sub-groups. -/
def rawDup : List TxnSnap → String → Option String := fun _ _ =>
  some "\x7b\"subclusters\": [\x7b\"ids\": [1, 2], \"representative_label\": \"A\"\x7d, \x7b\"ids\": [2, 3], \"representative_label\": \"B\"\x7d]\x7d"

/-- An LLM reply that omits transaction 3 (it must be re-attached to the
first sub-group). -/
def orphanReply : String :=
  "\x7b\"subclusters\": [\x7b\"ids\": [1], \"representative_label\": \"A\"\x7d, \x7b\"ids\": [2], \"representative_label\": \"B\"\x7d]\x7d"

def rawOrphan : List TxnSnap → String → Option String := fun _ _ =>
  some orphanReply

/-- The snapshots the LLM branch passes for the `stSplit` cluster. -/
def tdataS : List TxnSnap := (splitTxnsFromDb stSplit 1 [1, 2, 3]).map toSnap

/-- What `_parse_subclusters_response` makes of `orphanReply` for the
`stSplit` cluster: the omitted id 3 joins the first sub-group. -/
def scsOrphan : List SubC := [⟨[1, 3], "A", none, none⟩, ⟨[2], "B", none, none⟩]

/-- A two-transaction cluster whose members have identical embeddings:
average-linkage agglomerative clustering at any positive threshold
merges them into a single group, which the constant oracle reflects. -/
def pcPair : PCluster :=
  { pc10 with id := 10, transaction_ids := [1, 2], transaction_count := 2
              representative_label := "PAIRE" }

def stPair : State :=
  { accounts := [acct1], categories := [catCourses]
    transactions := [txnOf 1 "ALPHA" (-10), txnOf 2 "ALPHA" (-20)]
    rules := [], proposals := [prop1], pclusters := [pcPair], tclusters := [] }

def envMergeAll : ClusterEnv :=
  { fitPredict := fun embs _ => List.replicate embs.length 0
    classified_nonempty := false, knn := fun _ => none
    llm_enabled := false, llm_available := false
    llm_suggest := fun _ _ => none }

def noRaw : List TxnSnap → String → Option String := fun _ _ => none

/-- A one-transaction cluster, for the sub-two-transaction rejection. -/
def pcShort : PCluster :=
  { pc10 with id := 10, transaction_ids := [1], transaction_count := 1
              representative_label := "SEUL" }

def stShort : State :=
  { accounts := [acct1], categories := [catCourses]
    transactions := [txnOf 1 "ALPHA" (-10)]
    rules := [], proposals := [prop1], pclusters := [pcShort], tclusters := [] }

/-! # Theorems -/

/-- C8: the two worked parser examples of the specification (the
current-year argument is irrelevant here — both labels carry an
explicit or no year — and is fixed at 2026). -/
theorem c8_parser_examples :
    (parseLabel 2026 "FACTURE CARTE — DU 140126 PARK TRIVAUX BS MEUDON CARTE 4974XXXXXXXX3769").payment_type
        = some "card" ∧
    (parseLabel 2026 "FACTURE CARTE — DU 140126 PARK TRIVAUX BS MEUDON CARTE 4974XXXXXXXX3769").operation_date
        = some "2026-01-14" ∧
    (parseLabel 2026 "FACTURE CARTE — DU 140126 PARK TRIVAUX BS MEUDON CARTE 4974XXXXXXXX3769").card_id
        = some "4974XXXXXXXX3769" ∧
    (parseLabel 2026 "FACTURE CARTE — DU 140126 PARK TRIVAUX BS MEUDON CARTE 4974XXXXXXXX3769").counterparty
        = some "PARK TRIVAUX BS MEUDON" ∧
    (parseLabel 2026 "VIREMENT SEPA — CPAM DES HAUTS DE SEINE").payment_type
        = some "transfer" ∧
    (parseLabel 2026 "VIREMENT SEPA — CPAM DES HAUTS DE SEINE").counterparty
        = some "CPAM DES HAUTS DE SEINE" ∧
    (parseLabel 2026 "VIREMENT SEPA — CPAM DES HAUTS DE SEINE").operation_date
        = none :=
  ⟨rfl, rfl, rfl, rfl, rfl, rfl, rfl⟩

/-- C10: a raw label that is empty or whitespace-only parses to the
all-null result — in particular the counterparty is null, not the empty
whole label. -/
theorem c10_blank_label_all_null (y : Nat) (s : String)
    (h : pyStrip s.data = []) :
    parseLabel y s = ⟨none, none, none, none, none, none, none⟩ := by
  unfold parseLabel
  rw [h]
  simp [emptyResult]

theorem c10_blank_label_witness :
    pyStrip (" \t " : String).data = [] ∧
    parseLabel 2026 " \t " = ⟨none, none, none, none, none, none, none⟩ :=
  ⟨by decide, c10_blank_label_all_null 2026 " \t " (by decide)⟩

/-- C4 counterexample: `parse_label` is not idempotent.  The raw label
`"VIREMENT SEPA — FRAIS BANCAIRES"` extracts the counterparty
`"FRAIS BANCAIRES"`, but re-parsing that counterparty extracts the
payment mode `FRAIS` (type `fee`) and shrinks the counterparty to
`"BANCAIRES"`. -/
theorem c4_idempotence_counterexample :
    (parseLabel 2026 "VIREMENT SEPA — FRAIS BANCAIRES").counterparty
        = some "FRAIS BANCAIRES" ∧
    (parseLabel 2026 "FRAIS BANCAIRES").payment_mode = some "FRAIS" ∧
    (parseLabel 2026 "FRAIS BANCAIRES").payment_type = some "fee" ∧
    (parseLabel 2026 "FRAIS BANCAIRES").counterparty = some "BANCAIRES" :=
  ⟨rfl, rfl, rfl, rfl⟩

/-- C4 amended: `parse_label` is total by construction (the one
fallible step, date construction, is caught inside
`_parse_date_components`), and re-parsing an extracted counterparty is a
no-op exactly when the counterparty itself triggers none of the
parser's own matchers: no separator, no payment-mode prefix, no card,
date or trailing-reference pattern. -/
theorem c4_amended_guarded_idempotence (y : Nat) (x c : String)
    (hx : (parseLabel y x).counterparty = some c)
    (hne : c.data ≠ [])
    (hstrip : pyStrip c.data = c.data)
    (hcollapse : collapseWs c.data = c.data)
    (hsep : sepSplit c.data = none)
    (hmode : extractModeHead c.data = (none, c.data))
    (hcards : cardSuffixFind c.data = none)
    (hcardi : cardInlineFind c.data = none)
    (hduc : duCompact c.data = none)
    (hdus : duSlashed c.data = none)
    (hdt : dateTrailFind c.data = none)
    (href : refStrip c.data = c.data) :
    parseLabel y c = ⟨none, none, some c, none, none, none, some c⟩ := by
  have hie : c.data.isEmpty = false := by
    cases hc : c.data with
    | nil => exact absurd hc hne
    | cons a t => rfl
  unfold parseLabel
  rw [hstrip, hcollapse, hie]
  simp only [Bool.or_self, Bool.false_eq_true, if_false, Bool.or_false]
  rw [hsep]
  simp only [hmode]
  rw [hcards, hcardi, hduc, hdus, hdt]
  simp only [hne, if_false, reduceCtorEq, or_self, href, hstrip, hcollapse]
  rfl

theorem c4_amended_witness :
    (parseLabel 2026 "VIREMENT SEPA — CPAM DES HAUTS DE SEINE").counterparty
        = some "CPAM DES HAUTS DE SEINE" ∧
    parseLabel 2026 "CPAM DES HAUTS DE SEINE" =
      ⟨none, none, some "CPAM DES HAUTS DE SEINE", none, none, none,
       some "CPAM DES HAUTS DE SEINE"⟩ :=
  ⟨rfl,
   c4_amended_guarded_idempotence 2026 "VIREMENT SEPA — CPAM DES HAUTS DE SEINE"
     "CPAM DES HAUTS DE SEINE" rfl (by decide) rfl rfl rfl rfl rfl rfl rfl rfl
     rfl rfl⟩

/-- C2: with a valid category, at least one matching transaction and
`create_rule=True`, `classify_transactions` never reaches the
rule-upsert logic: the call site passes the keyword argument
`pattern_override`, which `create_rule_from_transaction` does not
declare, so Python raises `TypeError` instead of completing and
reporting `rule_created`. -/
theorem c2_rule_creation_typeerror_eval :
    st2.categories.map (·.id) = [7] ∧
    classifyTransactions st2 1 [1] 7 none true none =
      .error "TypeError: create_rule_from_transaction() got an unexpected keyword argument pattern_override" :=
  ⟨rfl, rfl⟩

/-- C5 counterexample: a classify request naming the absent category 99
is answered with a plain success carrying `classified_count = 0` and
`rule_created = False` and no error, and `apply_cluster` even marks the
cluster accepted with the invalid override — not the explicit error the
claim requires. -/
theorem c5_invalid_category_counterexample :
    st5.categories.map (·.id) = [7] ∧
    classifyTransactions st5 1 [1] 99 none true none = .ok (st5, ⟨0, false⟩) ∧
    (applyCluster st5 1 10 [1] 99 true none none).toOption.map
      (fun p => (p.1.transactions == st5.transactions,
                 p.1.rules.isEmpty,
                 p.1.pclusters.map (·.status),
                 p.1.pclusters.map (·.override_category_id),
                 p.2)) =
      some (true, true, ["accepted"], [some 99], ⟨0, false⟩) :=
  ⟨rfl, rfl, rfl⟩

/-- C5 amended: a classify request naming an unknown category performs
no write at all (the store is returned unchanged, no rule is created)
but the failure is a silent zero-effect success —
`classified_count = 0, rule_created = False` — not an explicit error;
`apply_cluster` then still marks the cluster accepted. -/
theorem c5_amended_no_write_silent_success (st : State) (uid : Nat)
    (ids : List Nat) (cid : Nat) (cl : Option String) (cr : Bool)
    (rp : Option String)
    (h : st.categories.find? (fun c => c.id == cid) = none) :
    classifyTransactions st uid ids cid cl cr rp = .ok (st, ⟨0, false⟩) := by
  unfold classifyTransactions
  rw [h]

theorem c5_amended_witness :
    st5.categories.find? (fun c => c.id == 42) = none ∧
    classifyTransactions st5 1 [1] 42 none true none = .ok (st5, ⟨0, false⟩) :=
  ⟨rfl, c5_amended_no_write_silent_success st5 1 [1] 42 none true none rfl⟩

/-- Loop-with-break equals first match: the inner rule loop of
`apply_rules` assigns the first matching rule in list order and ignores
the rest. -/
theorem applyRulesTxnGo_eq_firstMatch (rules : List Rule) (t : Txn) :
    applyRulesTxnGo rules t =
      match rules.find? (fun r => ruleMatches t.label_raw r.pattern r.match_type) with
      | some r => applyRuleToTxn r t
      | none => t := by
  induction rules with
  | nil => rfl
  | cons r rs ih =>
    by_cases h : ruleMatches t.label_raw r.pattern r.match_type
    · simp [applyRulesTxnGo, List.find?_cons, h]
    · simp [applyRulesTxnGo, List.find?_cons, h, ih]

/-- C6: rule evaluation is first-match-wins over the active rules in
descending priority order, matching case-insensitively per match type,
and on the spec's example — rules AMAZON (priority 5, category 100) and
AMAZON PRIME (priority 10, category 200), stored in ascending priority
order — the transaction "AMAZON PRIME VIDEO" matches both and receives
category 200. -/
theorem c6_rule_precedence :
    (∀ (rules : List Rule) (t : Txn),
      applyRulesTxnGo rules t =
        match rules.find? (fun r => ruleMatches t.label_raw r.pattern r.match_type) with
        | some r => applyRuleToTxn r t
        | none => t) ∧
    ruleMatches "AMAZON PRIME VIDEO" "AMAZON" "contains" = true ∧
    ruleMatches "AMAZON PRIME VIDEO" "AMAZON PRIME" "contains" = true ∧
    ruleMatches "amazon prime video" "AMAZON PRIME VIDEO" "exact" = true ∧
    ruleMatches "AMAZON PRIME VIDEO" "amazon" "starts_with" = true ∧
    ruleMatches "VIDEO AMAZON" "AMAZON" "starts_with" = false ∧
    (activeRulesSorted st6 1).map (·.priority) = [10, 5] ∧
    (applyRules st6 1 none).1.transactions.map (·.category_id) = [some 200] ∧
    (applyRules st6 1 none).1.transactions.map (·.ai_confidence) =
      [some "rule"] ∧
    (applyRules st6 1 none).2 = (1, 1) := by
  refine ⟨applyRulesTxnGo_eq_firstMatch, by decide, by decide, by decide,
    by decide, by decide, by decide, by decide, by decide, by decide⟩

/-- C7: the response parser extracts the embedded JSON object out of
surrounding prose; an out-of-range `category_id` whose name matches no
category yields `None`; the case-insensitive name fallback resolves; but
a well-formed JSON reply whose top-level value is not an object (here a
list) raises `AttributeError` instead of returning `None`. -/
theorem c7_llm_response_parser_eval :
    parseResponse
      "Voici : \x7b\"category_id\": 7, \"category_name\": \"Courses\", \"confidence\": \"high\", \"explanation\": \"ok\"\x7d merci"
      [(7, "Courses"), (8, "Transport")] =
      .ok (some ⟨7, some "Courses", "high", none, "llm", some "ok"⟩) ∧
    parseResponse "\x7b\"category_id\": 99, \"category_name\": \"Inconnu\", \"confidence\": \"high\"\x7d"
      [(7, "Courses")] = .ok none ∧
    parseResponse "\x7b\"category_id\": 99, \"category_name\": \"courses\"\x7d"
      [(7, "Courses")] =
      .ok (some ⟨7, some "Courses", "medium", none, "llm", some ""⟩) ∧
    parseResponse "pas de json ici" [(7, "Courses")] = .ok none ∧
    parseResponse "[1, 2]" [(7, "Courses")] =
      .error "AttributeError: object has no attribute get" :=
  ⟨rfl, rfl, rfl, rfl, rfl⟩

/-- C3 counterexample: with the category-semantics match below the
prefer threshold but above its floor, no k-NN answer, and the LLM
enabled and reachable, the code answers with the LLM suggestion while
the spec's waterfall (step 2 before step 3) answers with the
category-semantics suggestion. -/
theorem c3_waterfall_order_counterexample :
    suggestCategoryForTransaction env3 ≠ specSuggestWaterfall env3 ∧
    suggestCategoryForTransaction env3 = some llmSugg3 ∧
    (suggestCategoryForTransaction env3).map (·.source) = some "llm" ∧
    specSuggestWaterfall env3 = some cs3.toSuggestion ∧
    (specSuggestWaterfall env3).map (·.source) = some "category_semantics" :=
  ⟨by decide, rfl, rfl, rfl, rfl⟩

/-- C3 amended, the order the code implements.  For a single
transaction vector: (0) the category-semantics suggestion is preferred
outright at or above the prefer threshold; (1) otherwise the k-NN vote
answers when it has one; (2) otherwise, whenever the LLM is enabled and
reachable, its answer — even an empty one — is final; (3) only when the
LLM was not consulted does the category-semantics fallback above its
floor answer.  For cluster centroids only k-NN and the LLM are ever
attempted (the suggestion source is never `category_semantics`). -/
theorem c3_amended_actual_order :
    (∀ (e : WaterfallEnv) (s : CatSugg), e.embedding_present = true →
      e.cat_suggestion = some s → e.prefer_threshold ≤ s.similarity →
      suggestCategoryForTransaction e = some s.toSuggestion) ∧
    (∀ (e : WaterfallEnv) (s : Suggestion), e.embedding_present = true →
      (∀ cs, e.cat_suggestion = some cs → cs.similarity < e.prefer_threshold) →
      e.classified_nonempty = true → e.knn_suggestion = some s →
      suggestCategoryForTransaction e = some s) ∧
    (∀ (e : WaterfallEnv), e.embedding_present = true →
      (∀ cs, e.cat_suggestion = some cs → cs.similarity < e.prefer_threshold) →
      (if e.classified_nonempty then e.knn_suggestion else none) = none →
      e.llm_enabled = true → e.llm_available = true →
      suggestCategoryForTransaction e = e.llm_suggestion) ∧
    (∀ (e : WaterfallEnv) (cs : CatSugg), e.embedding_present = true →
      e.cat_suggestion = some cs → cs.similarity < e.prefer_threshold →
      (if e.classified_nonempty then e.knn_suggestion else none) = none →
      ¬(e.llm_enabled = true ∧ e.llm_available = true) →
      e.category_threshold ≤ cs.similarity →
      suggestCategoryForTransaction e = some cs.toSuggestion) ∧
    (∀ (env : ClusterEnv) (txns : List Txn) (embs : List (List ℚ))
       (groups : List (Int × List Nat)) (withId : Bool),
      (∀ v s, env.knn v = some s → s.source = "similar_transactions") →
      (∀ l ts s, env.llm_suggest l ts = some s → s.source = "llm") →
      ∀ c ∈ buildClusters env txns embs groups withId,
        c.suggestion_source = none ∨
        c.suggestion_source = some "similar_transactions" ∨
        c.suggestion_source = some "llm") := by
  refine ⟨?_, ?_, ?_, ?_, ?_⟩
  · intro e s h hp hle
    simp [suggestCategoryForTransaction, h, hp, hle]
  · intro e s h hlt hc hk
    cases hcs : e.cat_suggestion with
    | none =>
      simp [suggestCategoryForTransaction, h, hcs,
        suggestCategoryForTransaction.suggestAfterPrefer, hc, hk]
    | some cs =>
      have hl := hlt cs hcs
      simp [suggestCategoryForTransaction, h, hcs, not_le.mpr hl,
        suggestCategoryForTransaction.suggestAfterPrefer, hc, hk]
  · intro e h hlt hknone hle hla
    have hbody : suggestCategoryForTransaction.suggestAfterPrefer e =
        e.llm_suggestion := by
      unfold suggestCategoryForTransaction.suggestAfterPrefer
      rw [hknone]
      simp [hle, hla]
    cases hcs : e.cat_suggestion with
    | none => simp [suggestCategoryForTransaction, h, hcs, hbody]
    | some cs =>
      have hl := hlt cs hcs
      simp [suggestCategoryForTransaction, h, hcs, not_le.mpr hl, hbody]
  · intro e cs h hcs hlt hknone hnl hfloor
    have hbody : suggestCategoryForTransaction.suggestAfterPrefer e =
        some cs.toSuggestion := by
      unfold suggestCategoryForTransaction.suggestAfterPrefer
      rw [hknone]
      simp only [hcs]
      rw [if_neg hnl, if_pos hfloor]
    simp [suggestCategoryForTransaction, h, hcs, not_le.mpr hlt, hbody]
  · intro env txns embs groups withId hknn hllm c hc
    have hp1 : ∀ x ∈ groups.map (buildPass1 env txns embs withId),
        x.suggestion_source = none ∨
        x.suggestion_source = some "similar_transactions" := by
      intro x hx
      obtain ⟨g, _, rfl⟩ := List.mem_map.mp hx
      unfold buildPass1
      cases hk : (if env.classified_nonempty then
          env.knn (centroidOf (g.2.filterMap (embs.get? ·)))
        else none) with
      | none => left; rfl
      | some s =>
        right
        have hs : s.source = "similar_transactions" := by
          cases hcn : env.classified_nonempty with
          | false => rw [hcn] at hk; simp at hk
          | true => rw [hcn] at hk; simp only [if_true] at hk; exact hknn _ _ hk
        simp [applySuggestion, hs]
    unfold buildClusters at hc
    by_cases hl : env.llm_enabled ∧ env.llm_available
    · rw [if_pos hl] at hc
      obtain ⟨x, hx, rfl⟩ := List.mem_map.mp hc
      rcases hp1 x hx with h0 | h0
      · unfold buildLlmPass
        rw [if_pos h0]
        cases hls : env.llm_suggest x.representative_label
            x.sample_transactions with
        | none => left; exact h0
        | some s =>
          right; right
          simp [applySuggestion, hllm _ _ _ hls]
      · unfold buildLlmPass
        rw [if_neg (by simp [h0])]
        right; left; exact h0
    · rw [if_neg hl] at hc
      exact (hp1 c hc).imp id Or.inl

/-- Members of groups below the minimum size are exactly the `-1`
labels after re-labelling. -/
theorem relabel_count_neg (minSize : Nat) (labels : List Int)
    (h : ∀ l ∈ labels, 0 ≤ l) :
    (relabelSmall minSize labels).count (-1) =
      (labels.filter (fun l => labels.count l < minSize)).length := by
  unfold relabelSmall
  rw [List.count_eq_countP, List.countP_map, ← List.countP_eq_length_filter]
  apply List.countP_congr
  intro l hl
  by_cases hc : labels.count l < minSize
  · simp [Function.comp, hc]
  · have h0 := h l hl
    have hne : l ≠ -1 := by omega
    simp [Function.comp, hc, beq_iff_eq, hne]

theorem filterMapGetLength (txns : List Txn) (is : List Nat)
    (h : ∀ i ∈ is, i < txns.length) :
    (is.filterMap (txns.get? ·)).length = is.length := by
  induction is with
  | nil => rfl
  | cons i t ih =>
    have hi : i < txns.length := h i (by simp)
    cases hx : txns.get? i with
    | none =>
      have := List.get?_eq_none.mp hx
      omega
    | some x =>
      simp only [List.filterMap_cons, hx, List.length_cons]
      rw [ih (fun j hj => h j (by simp [hj]))]

theorem groupIndices_bound (labels : List Int) :
    ∀ g ∈ groupIndices labels, ∀ i ∈ g.2, i < labels.length := by
  intro g hg i hi
  unfold groupIndices at hg
  obtain ⟨l, _, hsome⟩ := List.mem_filterMap.mp hg
  by_cases h1 : (l == -1) = true
  · simp [h1] at hsome
  · rw [if_neg h1] at hsome
    obtain rfl : (l, (List.range labels.length).filter
        (fun i => labels.get? i == some l)) = g := Option.some.inj hsome
    simp only [List.mem_filter] at hi
    exact List.mem_range.mp hi.1

theorem buildPass1_fields (env : ClusterEnv) (txns : List Txn)
    (embs : List (List ℚ)) (withId : Bool) (g : Int × List Nat) :
    (buildPass1 env txns embs withId g).total_amount_abs =
      totalAbsOf (g.2.filterMap (txns.get? ·)) ∧
    (buildPass1 env txns embs withId g).transaction_count =
      (g.2.filterMap (txns.get? ·)).length := by
  unfold buildPass1
  cases (if env.classified_nonempty then
      env.knn (centroidOf (g.2.filterMap (embs.get? ·)))
    else none) with
  | some s => exact ⟨rfl, rfl⟩
  | none => exact ⟨rfl, rfl⟩

theorem buildLlmPass_fields (env : ClusterEnv) (c : ClusterOut) :
    (buildLlmPass env c).total_amount_abs = c.total_amount_abs ∧
    (buildLlmPass env c).transaction_count = c.transaction_count := by
  unfold buildLlmPass
  by_cases h : c.suggestion_source = none
  · rw [if_pos h]
    cases env.llm_suggest c.representative_label c.sample_transactions with
    | some s => exact ⟨rfl, rfl⟩
    | none => exact ⟨rfl, rfl⟩
  · rw [if_neg h]
    exact ⟨rfl, rfl⟩

theorem buildClusters_eq_map (env : ClusterEnv) (txns : List Txn)
    (embs : List (List ℚ)) (groups : List (Int × List Nat)) (withId : Bool) :
    buildClusters env txns embs groups withId =
      groups.map (fun g =>
        if env.llm_enabled ∧ env.llm_available then
          buildLlmPass env (buildPass1 env txns embs withId g)
        else buildPass1 env txns embs withId g) := by
  unfold buildClusters
  by_cases h : env.llm_enabled ∧ env.llm_available
  · rw [if_pos h, List.map_map]
    apply List.map_congr_left
    intro g _
    simp [Function.comp, h]
  · rw [if_neg h]
    apply List.map_congr_left
    intro g _
    simp [h]

theorem clusterLe_iff (txns : List Txn) (g1 g2 : Int × List Nat) :
    clusterLe txns g1 g2 = true ↔
      (totalAbsOf (g2.2.filterMap (txns.get? ·)) <
         totalAbsOf (g1.2.filterMap (txns.get? ·)) ∨
       (totalAbsOf (g1.2.filterMap (txns.get? ·)) =
          totalAbsOf (g2.2.filterMap (txns.get? ·)) ∧
        g2.2.length ≤ g1.2.length)) := by
  unfold clusterLe
  simp [Bool.or_eq_true, Bool.and_eq_true, decide_eq_true_eq, beq_iff_eq]

/-- C9: whenever `get_clusters` reaches the agglomerative step, every
member of a group smaller than the minimum cluster size is re-labelled
unclustered and counted in `unclustered_count` (not discarded), and the
returned cluster list is sorted by total absolute amount descending
with ties broken by transaction count descending. -/
theorem c9_small_groups_and_sort_order (env : ClusterEnv) (st : State)
    (uid : Nat) (account_id : Option Nat) (minSize : Nat) (threshold : ℚ)
    (hne : ¬(uncatOf st uid account_id).isEmpty = true)
    (hmin : ¬(uncatOf st uid account_id).length < minSize)
    (hlen : (env.fitPredict (embRowsOf (uncatOf st uid account_id))
        threshold).length = (uncatOf st uid account_id).length)
    (hnn : ∀ l ∈ env.fitPredict (embRowsOf (uncatOf st uid account_id))
        threshold, 0 ≤ l) :
    (getClusters env st uid account_id minSize threshold).unclustered_count =
      ((env.fitPredict (embRowsOf (uncatOf st uid account_id))
          threshold).filter
        (fun l => (env.fitPredict (embRowsOf (uncatOf st uid account_id))
            threshold).count l < minSize)).length ∧
    List.Pairwise (fun a b =>
        b.total_amount_abs < a.total_amount_abs ∨
        (a.total_amount_abs = b.total_amount_abs ∧
         b.transaction_count ≤ a.transaction_count))
      (getClusters env st uid account_id minSize threshold).clusters := by
  set uncat := uncatOf st uid account_id with huncat
  set labels := env.fitPredict (embRowsOf uncat) threshold with hlabels
  set labels' := relabelSmall minSize labels with hlabels'
  set rel : (Int × List Nat) → (Int × List Nat) → Prop :=
    fun g1 g2 => clusterLe uncat g1 g2 = true with hrel
  set groups := (groupIndices labels').insertionSort rel with hgroups
  have hcount : (getClusters env st uid account_id minSize threshold).unclustered_count =
      labels'.count (-1) := by
    unfold getClusters
    rw [← huncat]
    rw [if_neg hne, if_neg hmin]
  have hclusters : (getClusters env st uid account_id minSize threshold).clusters =
      buildClusters env uncat (embRowsOf uncat) groups true := by
    unfold getClusters
    rw [← huncat]
    rw [if_neg hne, if_neg hmin]
  refine ⟨?_, ?_⟩
  · rw [hcount]
    exact relabel_count_neg minSize labels hnn
  · rw [hclusters]
    have hlen' : labels'.length = uncat.length := by
      rw [hlabels']
      unfold relabelSmall
      rw [List.length_map, hlabels, hlen]
    -- the sort is w.r.t. a total, transitive comparison
    have htotal : ∀ g1 g2, rel g1 g2 ∨ rel g2 g1 := by
      intro g1 g2
      rw [hrel]
      simp only [clusterLe_iff]
      omega
    have htrans : ∀ g1 g2 g3, rel g1 g2 → rel g2 g3 → rel g1 g3 := by
      intro g1 g2 g3
      simp only [hrel, clusterLe_iff]
      omega
    haveI : IsTotal (Int × List Nat) rel := ⟨htotal⟩
    haveI : IsTrans (Int × List Nat) rel := ⟨htrans⟩
    have hsorted : List.Pairwise rel groups :=
      List.sorted_insertionSort rel (groupIndices labels')
    -- every group's indices are in range, so counts match lengths
    have hbound : ∀ g ∈ groups, ∀ i ∈ g.2, i < uncat.length := by
      intro g hg
      have hg' : g ∈ groupIndices labels' :=
        ((List.perm_insertionSort rel (groupIndices labels')).mem_iff).mp hg
      intro i hi
      have := groupIndices_bound labels' g hg' i hi
      omega
    rw [buildClusters_eq_map]
    rw [List.pairwise_map]
    refine hsorted.imp_of_mem ?_
    intro g1 g2 hg1 hg2 h12
    have hf1 := buildPass1_fields env uncat (embRowsOf uncat) true g1
    have hf2 := buildPass1_fields env uncat (embRowsOf uncat) true g2
    have hc1 : (g1.2.filterMap (uncat.get? ·)).length = g1.2.length :=
      filterMapGetLength uncat g1.2 (hbound g1 hg1)
    have hc2 : (g2.2.filterMap (uncat.get? ·)).length = g2.2.length :=
      filterMapGetLength uncat g2.2 (hbound g2 hg2)
    have h12' := (clusterLe_iff uncat g1 g2).mp h12
    by_cases hl : env.llm_enabled ∧ env.llm_available
    · rw [if_pos hl, if_pos hl]
      have hg1' := buildLlmPass_fields env (buildPass1 env uncat (embRowsOf uncat) true g1)
      have hg2' := buildLlmPass_fields env (buildPass1 env uncat (embRowsOf uncat) true g2)
      rw [hg1'.1, hg2'.1, hg1'.2, hg2'.2, hf1.1, hf2.1, hf1.2, hf2.2, hc1, hc2]
      exact h12'
    · rw [if_neg hl, if_neg hl]
      rw [hf1.1, hf2.1, hf1.2, hf2.2, hc1, hc2]
      exact h12'

theorem c3_amended_witness :
    suggestCategoryForTransaction env3b =
      some (CatSugg.toSuggestion { cs3 with similarity := 70 }) ∧
    suggestCategoryForTransaction env3 = env3.llm_suggestion :=
  ⟨c3_amended_actual_order.1 env3b { cs3 with similarity := 70 } rfl rfl
     (by decide),
   c3_amended_actual_order.2.2.1 env3 rfl
     (fun cs hcs => by
       have h2 : cs3 = cs := Option.some.inj hcs
       rw [← h2]
       decide)
     rfl rfl rfl⟩

theorem c9_small_groups_witness :
    (getClusters env9 st9 1 none 2 5).unclustered_count =
      ((env9.fitPredict (embRowsOf (uncatOf st9 1 none)) 5).filter
        (fun l =>
          (env9.fitPredict (embRowsOf (uncatOf st9 1 none)) 5).count l < 2)).length ∧
    List.Pairwise (fun a b =>
        b.total_amount_abs < a.total_amount_abs ∨
        (a.total_amount_abs = b.total_amount_abs ∧
         b.transaction_count ≤ a.transaction_count))
      (getClusters env9 st9 1 none 2 5).clusters :=
  c9_small_groups_and_sort_order env9 st9 1 none 2 5 (by decide) (by decide)
    (by decide) (by decide)

/-- Membership in the dedup fold is membership in the accumulator or the
input. -/
theorem mem_distinctLabels_go (l : List Int) (acc : List Int) (x : Int) :
    (x ∈ l.foldl (fun acc l => if acc.contains l then acc else acc ++ [l]) acc) ↔
      x ∈ acc ∨ x ∈ l := by
  induction l generalizing acc with
  | nil => simp
  | cons c t ih =>
    rw [List.foldl_cons, ih]
    by_cases hc : acc.contains c
    · rw [if_pos hc]
      constructor
      · exact fun h => h.elim Or.inl (fun h => Or.inr (List.mem_cons_of_mem _ h))
      · rintro (h | h)
        · exact Or.inl h
        · rcases List.mem_cons.mp h with rfl | h
          · exact Or.inl (by simpa using hc)
          · exact Or.inr h
    · rw [if_neg hc]
      constructor
      · rintro (h | h)
        · rcases List.mem_append.mp h with h | h
          · exact Or.inl h
          · exact Or.inr (List.mem_cons.mpr (Or.inl (by simpa using h)))
        · exact Or.inr (List.mem_cons_of_mem _ h)
      · rintro (h | h)
        · exact Or.inl (List.mem_append_left _ h)
        · rcases List.mem_cons.mp h with rfl | h
          · exact Or.inl (List.mem_append_right _ (by simp))
          · exact Or.inr h

theorem mem_distinctLabels (l : List Int) (x : Int) :
    x ∈ distinctLabels l ↔ x ∈ l := by
  unfold distinctLabels
  rw [mem_distinctLabels_go]
  simp

theorem mem_validTxnIds (txns : List TxnSnap) (v : Int) :
    v ∈ validTxnIds txns ↔ ∃ t ∈ txns, (t.id : Int) = v := by
  unfold validTxnIds
  rw [mem_distinctLabels]
  simp

/-- A sub-cluster the parser keeps has a nonempty id list drawn from the
allow-list. -/
theorem subCOf_ids_valid (valid : List Int) (cats : List (Nat × String))
    (j : Json) (s : SubC) (h : subCOf valid cats j = some s) :
    s.transaction_ids ≠ [] ∧ ∀ i ∈ s.transaction_ids, i ∈ valid := by
  unfold subCOf at h
  dsimp only at h
  split at h
  case h_2 => exact absurd h (by simp)
  case h_1 xs heq =>
    split at h
    case isTrue => exact absurd h (by simp)
    case isFalse hne =>
      injection h with h
      subst h
      dsimp only
      refine ⟨?_, ?_⟩
      · intro habs
        rw [habs] at hne
        simp at hne
      · intro i hi
        obtain ⟨x, hx, hbind⟩ := List.mem_filterMap.mp hi
        cases hpy : pyToInt x with
        | none => rw [hpy] at hbind; simp at hbind
        | some xi =>
          rw [hpy] at hbind
          dsimp only [Option.bind] at hbind
          split at hbind
          case isTrue hcont =>
            injection hbind with hbind
            subst hbind
            simpa using hcont
          case isFalse => simp at hbind

/-- The orphan-assignment step: the assembled list is nonempty, every
sub-group's ids are nonempty and drawn from the allow-list, and every
allow-list id lands in some sub-group. -/
theorem assembleSubC_props (valid : List Int) (cats : List (Nat × String))
    (items : List Json) (scs : List SubC)
    (h : assembleSubC valid cats items = some scs) :
    scs ≠ [] ∧ (∀ sc ∈ scs, sc.transaction_ids ≠ []) ∧
    (∀ sc ∈ scs, ∀ i ∈ sc.transaction_ids, i ∈ valid) ∧
    (∀ v ∈ valid, ∃ sc ∈ scs, v ∈ sc.transaction_ids) := by
  unfold assembleSubC at h
  cases hres : items.filterMap (subCOf valid cats) with
  | nil => rw [hres] at h; exact absurd h (by simp)
  | cons r0 rest =>
    rw [hres] at h
    dsimp only at h
    have hall : ∀ sc ∈ r0 :: rest,
        sc.transaction_ids ≠ [] ∧ ∀ i ∈ sc.transaction_ids, i ∈ valid := by
      intro sc hsc
      rw [← hres] at hsc
      obtain ⟨j, _, hj⟩ := List.mem_filterMap.mp hsc
      exact subCOf_ids_valid valid cats j sc hj
    split at h
    case isTrue hemp =>
      injection h with h
      subst h
      refine ⟨by simp, fun sc hsc => (hall sc hsc).1,
        fun sc hsc => (hall sc hsc).2, ?_⟩
      intro v hv
      have hvmem : v ∈ (List.map (fun sc => sc.transaction_ids) (r0 :: rest)).flatten := by
        by_contra hnc
        have hin : v ∈ valid.filter
            (fun v => !(List.map (fun sc => sc.transaction_ids) (r0 :: rest)).flatten.contains v) := by
          rw [List.mem_filter]
          exact ⟨hv, by simpa using hnc⟩
        rw [List.isEmpty_iff.mp hemp] at hin
        simp at hin
      obtain ⟨ids, hids, hvi⟩ := List.mem_flatten.mp hvmem
      obtain ⟨sc, hsc, rfl⟩ := List.mem_map.mp hids
      exact ⟨sc, hsc, hvi⟩
    case isFalse hemp =>
      injection h with h
      subst h
      refine ⟨by simp, ?_, ?_, ?_⟩
      · intro sc hsc
        rcases List.mem_cons.mp hsc with rfl | hsc
        · dsimp only
          intro habs
          rcases List.append_eq_nil.mp habs with ⟨h1, _⟩
          exact (hall r0 (by simp)).1 h1
        · exact (hall sc (List.mem_cons_of_mem _ hsc)).1
      · intro sc hsc i hi
        rcases List.mem_cons.mp hsc with rfl | hsc
        · dsimp only at hi
          rcases List.mem_append.mp hi with hi | hi
          · exact (hall r0 (by simp)).2 i hi
          · exact (List.mem_filter.mp hi).1
        · exact (hall sc (List.mem_cons_of_mem _ hsc)).2 i hi
      · intro v hv
        by_cases hcv : (List.map (fun sc => sc.transaction_ids) (r0 :: rest)).flatten.contains v
        · have hvmem : v ∈ (List.map (fun sc => sc.transaction_ids) (r0 :: rest)).flatten := by
            simpa using hcv
          obtain ⟨ids, hids, hvi⟩ := List.mem_flatten.mp hvmem
          obtain ⟨sc, hsc, rfl⟩ := List.mem_map.mp hids
          rcases List.mem_cons.mp hsc with rfl | hsc
          · exact ⟨_, List.mem_cons_self _ _, List.mem_append_left _ hvi⟩
          · exact ⟨sc, List.mem_cons_of_mem _ hsc, hvi⟩
        · refine ⟨_, List.mem_cons_self _ _, List.mem_append_right _ ?_⟩
          rw [List.mem_filter]
          exact ⟨hv, by simpa using hcv⟩

/-- `_parse_subclusters_response` succeeds only through the
orphan-assignment step over the allow-list. -/
theorem parseSubclusters_ok_assemble (text : String) (txns : List TxnSnap)
    (cats : List (Nat × String)) (scs : List SubC)
    (h : parseSubclusters text txns cats = .ok (some scs)) :
    ∃ items, assembleSubC (validTxnIds txns) cats items = some scs := by
  unfold parseSubclusters at h
  dsimp only at h
  split at h
  · exact absurd h (by simp)
  split at h
  · exact absurd h (by simp)
  split at h
  case h_1 fs =>
    split at h
    case h_1 items heq =>
      split at h
      · exact absurd h (by simp)
      split at h
      · exact absurd h (by simp)
      case h_2 scs' hassem =>
        injection h with h
        injection h with h
        subst h
        exact ⟨items, hassem⟩
    case h_2 => exact absurd h (by simp)
  case h_2 => exact Except.noConfusion h

theorem enrichSubC_ids (fdb : List Txn) (sc : SubC) (c : ClusterOut)
    (h : enrichSubC fdb sc = some c) :
    c.transaction_ids = sc.transaction_ids.map (fun i => i.toNat) := by
  unfold enrichSubC at h
  dsimp only at h
  split at h
  · exact absurd h (by simp)
  · injection h with h
    subst h
    rfl

theorem enrichSubC_some_of (fdb : List Txn) (sc : SubC)
    (hne : ¬ (sc.transaction_ids.filterMap
        (fun i => fdb.find? fun u => ((u.id : Int)) == i)).isEmpty = true) :
    ∃ c, enrichSubC fdb sc = some c ∧
      c.transaction_ids = sc.transaction_ids.map (fun i => i.toNat) := by
  have hsome : (enrichSubC fdb sc).isSome = true := by
    unfold enrichSubC
    dsimp only
    rw [if_neg hne]
    rfl
  obtain ⟨c, hc⟩ := Option.isSome_iff_exists.mp hsome
  exact ⟨c, hc, enrichSubC_ids fdb sc c hc⟩

/-- The enrichment step of `recluster` keeps every fetched transaction
in some sub-group, and every stored id names a fetched transaction. -/
theorem enrichSubC_id_facts (fdb : List Txn) (scs : List SubC)
    (hids : ∀ sc ∈ scs, ∀ i ∈ sc.transaction_ids, i ∈ validTxnIds (fdb.map toSnap))
    (hcov : ∀ v ∈ validTxnIds (fdb.map toSnap), ∃ sc ∈ scs, v ∈ sc.transaction_ids) :
    (∀ c ∈ scs.filterMap (enrichSubC fdb), ∀ i ∈ c.transaction_ids,
        ∃ t ∈ fdb, t.id = i) ∧
    (∀ t ∈ fdb, ∃ c ∈ scs.filterMap (enrichSubC fdb), t.id ∈ c.transaction_ids) := by
  constructor
  · intro c hc i hi
    obtain ⟨sc, hsc, he⟩ := List.mem_filterMap.mp hc
    rw [enrichSubC_ids fdb sc c he] at hi
    obtain ⟨xi, hxi, rfl⟩ := List.mem_map.mp hi
    obtain ⟨s, hs, hsid⟩ := (mem_validTxnIds _ _).mp (hids sc hsc xi hxi)
    obtain ⟨t, ht, rfl⟩ := List.mem_map.mp hs
    refine ⟨t, ht, ?_⟩
    have hti : ((t.id : Int)) = xi := hsid
    rw [← hti, Int.toNat_natCast]
  · intro t ht
    have hvt : ((t.id : Int)) ∈ validTxnIds (fdb.map toSnap) := by
      rw [mem_validTxnIds]
      exact ⟨toSnap t, List.mem_map_of_mem _ ht, rfl⟩
    obtain ⟨sc, hsc, hvsc⟩ := hcov _ hvt
    have hfind : (fdb.find? fun u => ((u.id : Int)) == (t.id : Int)).isSome := by
      rw [List.find?_isSome]
      exact ⟨t, ht, by simp⟩
    obtain ⟨t', hft'⟩ := Option.isSome_iff_exists.mp hfind
    have hmemc : t' ∈ sc.transaction_ids.filterMap
        (fun i => fdb.find? fun u => ((u.id : Int)) == i) := by
      rw [List.mem_filterMap]
      exact ⟨(t.id : Int), hvsc, hft'⟩
    have hne : ¬ (sc.transaction_ids.filterMap
        (fun i => fdb.find? fun u => ((u.id : Int)) == i)).isEmpty = true := by
      intro habs
      rw [List.isEmpty_iff.mp habs] at hmemc
      simp at hmemc
    obtain ⟨c, hcEq, hcids⟩ := enrichSubC_some_of fdb sc hne
    refine ⟨c, List.mem_filterMap.mpr ⟨sc, hsc, hcEq⟩, ?_⟩
    rw [hcids]
    refine List.mem_map.mpr ⟨(t.id : Int), hvsc, ?_⟩
    exact Int.toNat_natCast t.id

/-- Field bookkeeping of the inserted rows. -/
theorem newPCluster_map_props (l : List ClusterOut) (pid : Nat) (b : Nat) (m : Int) :
    ((l.enum.map (newPCluster pid b m)).map (fun c => c.transaction_ids) =
       l.map (fun c => c.transaction_ids)) ∧
    (l.enum.map (newPCluster pid b m)).length = l.length ∧
    ∀ c ∈ l.enum.map (newPCluster pid b m),
      c.status = "pending" ∧ c.proposal_id = pid := by
  refine ⟨?_, ?_, ?_⟩
  · rw [List.map_map]
    conv_rhs => rw [← List.enum_map_snd l, List.map_map]
    apply List.map_congr_left
    intro p _
    rfl
  · rw [List.length_map, List.enum_length]
  · intro c hc
    obtain ⟨p, _, rfl⟩ := List.mem_map.mp hc
    exact ⟨rfl, rfl⟩

/-- The successful LLM branch of `recluster`: the original cluster row
is removed, the enriched sub-groups (at least two) are appended as new
pending rows under the same proposal, id lists unchanged. -/
theorem recluster_llm_shape (env : ClusterEnv)
    (lr : List TxnSnap → String → Option String) (st : State) (uid cid : Nat)
    (dt : Option ℚ) (cl : PCluster) (prop : Proposal) (scs : List SubC)
    (hfind : findOwnedCluster st uid cid = some cl)
    (hprop : st.proposals.find? (fun p => p.id == cl.proposal_id) = some prop)
    (hlen : ¬ cl.transaction_ids.length < 2)
    (hllm : env.llm_available = true)
    (hfdb : ¬ ((splitTxnsFromDb st uid cl.transaction_ids).map toSnap).isEmpty = true)
    (hsugg : (suggestSubclusters
        (lr ((splitTxnsFromDb st uid cl.transaction_ids).map toSnap)
          cl.representative_label)
        ((splitTxnsFromDb st uid cl.transaction_ids).map toSnap)
        (enrichedCats st uid)).2 = some scs)
    (henr : 2 ≤ (scs.filterMap
        (enrichSubC (splitTxnsFromDb st uid cl.transaction_ids))).length) :
    ∃ newCs,
      recluster env lr st uid cid dt true =
        .ok ({ st with pclusters :=
          (st.pclusters.filter fun c => !(c.id == cl.id)) ++ newCs }, "llm") ∧
      newCs.map (fun c => c.transaction_ids) =
        (scs.filterMap
          (enrichSubC (splitTxnsFromDb st uid cl.transaction_ids))).map
            (fun c => c.transaction_ids) ∧
      2 ≤ newCs.length ∧
      ∀ c ∈ newCs, c.status = "pending" ∧ c.proposal_id = prop.id := by
  have hne2 : ¬ (scs.filterMap
      (enrichSubC (splitTxnsFromDb st uid cl.transaction_ids))).isEmpty = true := by
    intro habs
    rw [List.isEmpty_iff.mp habs] at henr
    simp at henr
  have hprops := newPCluster_map_props
    (scs.filterMap (enrichSubC (splitTxnsFromDb st uid cl.transaction_ids)))
    prop.id ((st.pclusters.map (fun c => c.id)).foldr max 0)
    (((st.pclusters.filter fun c =>
        c.proposal_id == prop.id && !(c.id == cl.id)).map
      (fun c => c.cluster_index)).foldr max (-1))
  refine ⟨(scs.filterMap
      (enrichSubC (splitTxnsFromDb st uid cl.transaction_ids))).enum.map
        (newPCluster prop.id ((st.pclusters.map (fun c => c.id)).foldr max 0)
          (((st.pclusters.filter fun c =>
              c.proposal_id == prop.id && !(c.id == cl.id)).map
            (fun c => c.cluster_index)).foldr max (-1))),
    ?_, hprops.1, ?_, hprops.2.2⟩
  · unfold recluster
    simp only [hfind, hprop, hsugg]
    rw [if_neg hlen,
        if_pos (show True ∧ env.llm_available = true from ⟨trivial, hllm⟩),
        if_neg hfdb, if_pos henr]
    dsimp only
    rw [if_neg hne2]
  · rw [hprops.2.1]
    exact henr

/-- C1 counterexample: a split is not a partition.  On the LLM path the
reply `rawDup` lists transaction 2 in both sub-groups and both are kept,
so the id is duplicated across the two inserted rows; on the embedding
fallback a two-transaction cluster whose members have identical
embeddings (so the agglomerative step merges everything) is "split" into
a single sub-cluster, which still counts as a success that deletes and
replaces the original row. -/
theorem c1_split_partition_counterexample :
    pcSplit.transaction_ids = [1, 2, 3] ∧
    (recluster envLlm rawDup stSplit 1 10 none true).toOption.map
        (fun p => (p.1.pclusters.map (fun c => c.transaction_ids), p.2)) =
      some ([[1, 2], [2, 3]], "llm") ∧
    pcPair.transaction_ids = [1, 2] ∧
    (recluster envMergeAll noRaw stPair 1 10 none true).toOption.map
        (fun p => (p.1.pclusters.map (fun c => c.transaction_ids),
          p.1.pclusters.length, p.2)) =
      some ([[1, 2]], 1, "embedding") :=
  ⟨rfl, rfl, rfl, rfl⟩

/-- C1 (amended): splitting a cluster of fewer than two transactions is
rejected with the explicit 400 error.  A successfully parsed LLM reply
yields a nonempty list of sub-groups whose id lists are nonempty, drawn
from the cluster's own ids, and jointly cover every id (ids the reply
omits are re-attached to the first sub-group); the enrichment step
preserves this coverage over the fetched rows; and a successful LLM
split removes the original cluster row and inserts at least two pending
sub-cluster rows carrying exactly those id lists under the same
proposal.  The sub-groups need not be disjoint, and the embedding
fallback can succeed with a single sub-cluster (see the
counterexample). -/
theorem c1_amended_split_invariant :
    (∀ (env : ClusterEnv) (lr : List TxnSnap → String → Option String)
      (st : State) (uid cid : Nat) (dt : Option ℚ) (ul : Bool)
      (cl : PCluster) (prop : Proposal),
      findOwnedCluster st uid cid = some cl →
      st.proposals.find? (fun p => p.id == cl.proposal_id) = some prop →
      cl.transaction_ids.length < 2 →
      recluster env lr st uid cid dt ul =
        .error "400: Un cluster de moins de deux transactions ne peut pas etre fragmente") ∧
    (∀ (text : String) (txns : List TxnSnap) (cats : List (Nat × String))
      (scs : List SubC),
      parseSubclusters text txns cats = .ok (some scs) →
      scs ≠ [] ∧ (∀ sc ∈ scs, sc.transaction_ids ≠ []) ∧
      (∀ sc ∈ scs, ∀ i ∈ sc.transaction_ids, i ∈ validTxnIds txns) ∧
      (∀ v ∈ validTxnIds txns, ∃ sc ∈ scs, v ∈ sc.transaction_ids)) ∧
    (∀ (fdb : List Txn) (scs : List SubC),
      (∀ sc ∈ scs, ∀ i ∈ sc.transaction_ids, i ∈ validTxnIds (fdb.map toSnap)) →
      (∀ v ∈ validTxnIds (fdb.map toSnap), ∃ sc ∈ scs, v ∈ sc.transaction_ids) →
      (∀ c ∈ scs.filterMap (enrichSubC fdb), ∀ i ∈ c.transaction_ids,
          ∃ t ∈ fdb, t.id = i) ∧
      (∀ t ∈ fdb, ∃ c ∈ scs.filterMap (enrichSubC fdb), t.id ∈ c.transaction_ids)) ∧
    (∀ (env : ClusterEnv) (lr : List TxnSnap → String → Option String)
      (st : State) (uid cid : Nat) (dt : Option ℚ) (cl : PCluster)
      (prop : Proposal) (scs : List SubC),
      findOwnedCluster st uid cid = some cl →
      st.proposals.find? (fun p => p.id == cl.proposal_id) = some prop →
      ¬ cl.transaction_ids.length < 2 →
      env.llm_available = true →
      ¬ ((splitTxnsFromDb st uid cl.transaction_ids).map toSnap).isEmpty = true →
      (suggestSubclusters
          (lr ((splitTxnsFromDb st uid cl.transaction_ids).map toSnap)
            cl.representative_label)
          ((splitTxnsFromDb st uid cl.transaction_ids).map toSnap)
          (enrichedCats st uid)).2 = some scs →
      2 ≤ (scs.filterMap (enrichSubC (splitTxnsFromDb st uid cl.transaction_ids))).length →
      ∃ newCs,
        recluster env lr st uid cid dt true =
          .ok ({ st with pclusters :=
            (st.pclusters.filter fun c => !(c.id == cl.id)) ++ newCs }, "llm") ∧
        newCs.map (fun c => c.transaction_ids) =
          (scs.filterMap (enrichSubC (splitTxnsFromDb st uid cl.transaction_ids))).map
            (fun c => c.transaction_ids) ∧
        2 ≤ newCs.length ∧
        ∀ c ∈ newCs, c.status = "pending" ∧ c.proposal_id = prop.id) := by
  refine ⟨?_, ?_, ?_, ?_⟩
  · intro env lr st uid cid dt ul cl prop hfind hprop hlen
    unfold recluster
    simp only [hfind, hprop]
    rw [if_pos hlen]
  · intro text txns cats scs h
    obtain ⟨items, hassem⟩ := parseSubclusters_ok_assemble text txns cats scs h
    exact assembleSubC_props (validTxnIds txns) cats items scs hassem
  · exact enrichSubC_id_facts
  · exact recluster_llm_shape

/-- C1 witness: the amended invariant at the concrete fixtures — the
one-transaction cluster is rejected; the `orphanReply` parse yields two
covering sub-groups with id 3 re-attached to the first; enrichment keeps
all three fetched transactions; and the split of `pcSplit` succeeds with
two new pending rows. -/
theorem c1_amended_split_witness :
    (recluster envLlm rawDup stShort 1 10 none true =
      .error "400: Un cluster de moins de deux transactions ne peut pas etre fragmente") ∧
    (scsOrphan ≠ [] ∧ (∀ sc ∈ scsOrphan, sc.transaction_ids ≠ []) ∧
      (∀ sc ∈ scsOrphan, ∀ i ∈ sc.transaction_ids, i ∈ validTxnIds tdataS) ∧
      (∀ v ∈ validTxnIds tdataS, ∃ sc ∈ scsOrphan, v ∈ sc.transaction_ids)) ∧
    ((∀ c ∈ scsOrphan.filterMap (enrichSubC (splitTxnsFromDb stSplit 1 [1, 2, 3])),
        ∀ i ∈ c.transaction_ids, ∃ t ∈ splitTxnsFromDb stSplit 1 [1, 2, 3], t.id = i) ∧
      (∀ t ∈ splitTxnsFromDb stSplit 1 [1, 2, 3],
        ∃ c ∈ scsOrphan.filterMap (enrichSubC (splitTxnsFromDb stSplit 1 [1, 2, 3])),
          t.id ∈ c.transaction_ids)) ∧
    (∃ newCs, recluster envLlm rawOrphan stSplit 1 10 none true =
        .ok ({ stSplit with pclusters :=
          (stSplit.pclusters.filter fun c => !(c.id == pcSplit.id)) ++ newCs }, "llm") ∧
      newCs.map (fun c => c.transaction_ids) =
        (scsOrphan.filterMap
          (enrichSubC (splitTxnsFromDb stSplit 1 pcSplit.transaction_ids))).map
            (fun c => c.transaction_ids) ∧
      2 ≤ newCs.length ∧
      ∀ c ∈ newCs, c.status = "pending" ∧ c.proposal_id = prop1.id) :=
  ⟨c1_amended_split_invariant.1 envLlm rawDup stShort 1 10 none true pcShort prop1
      rfl rfl (by decide),
   c1_amended_split_invariant.2.1 orphanReply tdataS (enrichedCats stSplit 1)
      scsOrphan rfl,
   c1_amended_split_invariant.2.2.1 (splitTxnsFromDb stSplit 1 [1, 2, 3]) scsOrphan
      (by decide) (by decide),
   c1_amended_split_invariant.2.2.2 envLlm rawOrphan stSplit 1 10 none pcSplit prop1
      scsOrphan rfl rfl (by decide) rfl (by decide) rfl (by decide)⟩
